import Mathlib

/-
Verification development for the granary conversion core
(src/granary/nostr.py, src/granary/microformats2.py, src/granary/mastodon.py).

The Python data (JSON-like dicts, lists, strings, ints, booleans, None) is
shallowly embedded as the inductive type Json below.  Python dicts are
modeled as insertion-ordered association lists with unique keys; dict
mutation performed by a source function is modeled by returning the
post-call value of the mutated argument.  Failures (assertion errors,
unbound locals) are modeled with Option/Except.
-/

namespace Granary

/-- Python/JSON values as used by the conversion core. -/
inductive Json where
  | null
  | bool (b : Bool)
  | num (n : Int)
  | str (s : String)
  | arr (xs : List Json)
  | obj (kvs : List (String × Json))
deriving Repr

mutual

/-- Structural equality on Json values, mirroring Python == on the
corresponding dict/list/str/int/bool/None values. -/
def beqJson : Json → Json → Bool
  | .null, .null => true
  | .bool a, .bool b => a == b
  | .num a, .num b => a == b
  | .str a, .str b => a == b
  | .arr a, .arr b => beqList a b
  | .obj a, .obj b => beqKvs a b
  | _, _ => false

def beqList : List Json → List Json → Bool
  | [], [] => true
  | a :: as, b :: bs => beqJson a b && beqList as bs
  | _, _ => false

def beqKvs : List (String × Json) → List (String × Json) → Bool
  | [], [] => true
  | (k, v) :: as, (k', v') :: bs => k == k' && beqJson v v' && beqKvs as bs
  | _, _ => false

end

mutual

theorem beqJson_iff : ∀ a b : Json, beqJson a b = true ↔ a = b
  | .null, b => by cases b <;> simp [beqJson]
  | .bool x, b => by cases b <;> simp [beqJson]
  | .num x, b => by cases b <;> simp [beqJson]
  | .str x, b => by cases b <;> simp [beqJson]
  | .arr xs, b => by
      cases b <;> simp [beqJson]
      exact beqList_iff xs _
  | .obj kvs, b => by
      cases b <;> simp [beqJson]
      exact beqKvs_iff kvs _

theorem beqList_iff : ∀ a b : List Json, beqList a b = true ↔ a = b
  | [], b => by cases b <;> simp [beqList]
  | x :: xs, b => by
      cases b with
      | nil => simp [beqList]
      | cons y ys =>
        simp [beqList, Bool.and_eq_true, beqJson_iff x y, beqList_iff xs ys]

theorem beqKvs_iff : ∀ a b : List (String × Json), beqKvs a b = true ↔ a = b
  | [], b => by cases b <;> simp [beqKvs]
  | (k, v) :: xs, b => by
      cases b with
      | nil => simp [beqKvs]
      | cons y ys =>
        obtain ⟨k', v'⟩ := y
        simp [beqKvs, Bool.and_eq_true, beqJson_iff v v', beqKvs_iff xs ys]

end

instance : DecidableEq Json := fun a b => decidable_of_iff _ (beqJson_iff a b)

/-- A Python dict: insertion-ordered association list with unique keys. -/
abbrev PyDict := List (String × Json)

/-- Lookup of a key in a dict, d.get(k) in Python (None result distinguished
from a stored None by the Option layer). -/
def getKV : PyDict → String → Option Json
  | [], _ => none
  | (k', v) :: rest, k => if k' = k then some v else getKV rest k

/-- d.get(k, default) collapsing a stored value into a plain Json value. -/
def dictGet (d : PyDict) (k : String) (dflt : Json := Json.null) : Json :=
  (getKV d k).getD dflt

/-- Python k in d. -/
def hasKey (d : PyDict) (k : String) : Bool :=
  d.any (fun kv => kv.1 = k)

/-- Python d[k] = v: replaces the value in place when the key is present,
appends the pair otherwise. -/
def dictSet : PyDict → String → Json → PyDict
  | [], k, v => [(k, v)]
  | (k', v') :: rest, k, v =>
    if k' = k then (k, v) :: rest else (k', v') :: dictSet rest k v

/-- Python d.update(other): sequential d[k] = v for each pair of other. -/
def dictUpdate (d : PyDict) (other : PyDict) : PyDict :=
  other.foldl (fun acc kv => dictSet acc kv.1 kv.2) d

/-- Python d.setdefault(k, v): inserts (k, v) when the key is absent. -/
def setdefault (d : PyDict) (k : String) (v : Json) : PyDict :=
  if hasKey d k then d else d ++ [(k, v)]

/-- Python d.keys() as the ordered key list. -/
def keys (d : PyDict) : List String := d.map Prod.fst

/-- Python set-equality of two key collections, as used by
event.keys() == set((...)) in nostr.py id_for. -/
def keySetEq (ks target : List String) : Bool :=
  ks.all (fun k => target.contains k) && target.all (fun k => ks.contains k)

/-- Python truthiness of a JSON-like value. -/
def truthy : Json → Bool
  | .null => false
  | .bool b => b
  | .num n => n != 0
  | .str s => s ≠ ""
  | .arr xs => !xs.isEmpty
  | .obj kvs => !kvs.isEmpty

/-- Truthiness of a d.get(k) result (Python None when absent). -/
def truthyOpt : Option Json → Bool
  | none => false
  | some v => truthy v

/-- Python a or b on values. -/
def pyOr (a b : Json) : Json := if truthy a then a else b

/-- Coercion to a Python list; the embedding only relies on it where the
source requires a list (the theorems restrict to such well-formed inputs). -/
def asList : Json → List Json
  | .arr xs => xs
  | _ => []

/-- Coercion to a Python dict, same proviso as asList. -/
def asObj : Json → PyDict
  | .obj kvs => kvs
  | _ => []

/-- Python str.startswith. -/
def pyStartsWith (s pre : String) : Bool := pre.data.isPrefixOf s.data

/-- Python str.removeprefix: drops pre when it is a prefix, else returns s. -/
def removePrefixPy (s pre : String) : String :=
  if pre.data.isPrefixOf s.data then ⟨s.data.drop pre.data.length⟩ else s

/-- Python c in s for a single character. -/
def strContains (s : String) (c : Char) : Bool := s.data.contains c

/-- Replacement of every non-overlapping occurrence of pat, left to right
(Python str.replace); the fuel is the string length, enough since every
step consumes at least one character. -/
def pyReplaceF (pat rep : List Char) : Nat → List Char → List Char
  | 0, cs => cs
  | _ + 1, [] => []
  | n + 1, c :: rest =>
    if pat ≠ [] && pat.isPrefixOf (c :: rest) then
      rep ++ pyReplaceF pat rep n ((c :: rest).drop pat.length)
    else c :: pyReplaceF pat rep n rest

/-- Python s.replace(pat, rep). -/
def pyReplace (s pat rep : String) : String :=
  ⟨pyReplaceF pat.data rep.data s.data.length s.data⟩

/-- Python sep.join(parts). -/
def joinSep (sep : String) : List String → String
  | [] => ""
  | [x] => x
  | x :: rest => x ++ sep ++ joinSep sep rest

mutual

/-- Python repr of a JSON-like value, as used when a container is formatted
with %s; strings are single-quoted (escape corner cases not reproduced). -/
def pyRepr : Json → String
  | .null => "None"
  | .bool true => "True"
  | .bool false => "False"
  | .num n => toString n
  | .str s => "\x27" ++ s ++ "\x27"
  | .arr xs => "[" ++ pyReprList xs ++ "]"
  | .obj kvs => "\x7b" ++ pyReprKvs kvs ++ "\x7d"

def pyReprList : List Json → String
  | [] => ""
  | [x] => pyRepr x
  | x :: rest => pyRepr x ++ ", " ++ pyReprList rest

def pyReprKvs : List (String × Json) → String
  | [] => ""
  | [(k, v)] => "\x27" ++ k ++ "\x27: " ++ pyRepr v
  | (k, v) :: rest => "\x27" ++ k ++ "\x27: " ++ pyRepr v ++ ", " ++ pyReprKvs rest

end

/-- Python str(v) / '%s' % v / f-string interpolation of a value. -/
def pyFormat : Json → String
  | .str s => s
  | v => pyRepr v

/-- Hex digit (lowercase). -/
def hexDigit (n : Nat) : Char :=
  if n < 10 then Char.ofNat (48 + n) else Char.ofNat (87 + n)

/-- Fixed-width lowercase big-endian hex rendering of a number. -/
def toHexW : Nat → Nat → String
  | 0, _ => ""
  | w + 1, n => toHexW w (n / 16) ++ String.singleton (hexDigit (n % 16))

/-- JSON string escape for one character, following Python json.dumps with
its default ensure_ascii=True (used by oauth_dropins.webutil json_dumps). -/
def pyJsonEscapeChar (c : Char) : String :=
  if c = '"' then "\\\""
  else if c = '\\' then "\\\\"
  else if c = '\n' then "\\n"
  else if c = '\r' then "\\r"
  else if c = '\t' then "\\t"
  else if c.toNat = 8 then "\\b"
  else if c.toNat = 12 then "\\f"
  else if c.toNat < 32 || c.toNat > 126 then
    if c.toNat < 65536 then "\\u" ++ toHexW 4 c.toNat
    else
      let n := c.toNat - 65536
      "\\u" ++ toHexW 4 (55296 + n / 1024) ++ "\\u" ++ toHexW 4 (56320 + n % 1024)
  else String.singleton c

/-- JSON string literal serialization, Python json.dumps style. -/
def pyJsonQuote (s : String) : String :=
  "\"" ++ String.join (s.data.map pyJsonEscapeChar) ++ "\""

/-- Ordered insertion into a key-sorted list (Python sorted is ascending by
string code points; dict keys are unique so ties cannot occur). -/
def insertSortedKV (kv : String × Json) : List (String × Json) → List (String × Json)
  | [] => [kv]
  | kv' :: rest =>
    if kv.1 < kv'.1 then kv :: kv' :: rest else kv' :: insertSortedKV kv rest

/-- Key sort used by json.dumps(..., sort_keys=True). -/
def sortKVs (kvs : List (String × Json)) : List (String × Json) :=
  kvs.foldr insertSortedKV []

mutual

/-- Recursive key sort of every object level, the reordering performed by
json.dumps(..., sort_keys=True). -/
def sortJson : Json → Json
  | .obj kvs => .obj (sortKVs (sortJsonKvs kvs))
  | .arr xs => .arr (sortJsonList xs)
  | v => v

def sortJsonList : List Json → List Json
  | [] => []
  | x :: rest => sortJson x :: sortJsonList rest

def sortJsonKvs : List (String × Json) → List (String × Json)
  | [] => []
  | (k, v) :: rest => (k, sortJson v) :: sortJsonKvs rest

end

mutual

/-- Python json.dumps with default separators (item ", ", key ": ") and
ensure_ascii=True, as invoked through oauth_dropins.webutil.util.json_dumps
in nostr.py; objects serialize in stored key order. -/
def jsonDumpsVal : Json → String
  | .null => "null"
  | .bool true => "true"
  | .bool false => "false"
  | .num n => toString n
  | .str s => pyJsonQuote s
  | .arr xs => "[" ++ jsonDumpsList xs ++ "]"
  | .obj kvs => "\x7b" ++ jsonDumpsKvs kvs ++ "\x7d"

def jsonDumpsList : List Json → String
  | [] => ""
  | [x] => jsonDumpsVal x
  | x :: rest => jsonDumpsVal x ++ ", " ++ jsonDumpsList rest

def jsonDumpsKvs : List (String × Json) → String
  | [] => ""
  | [(k, v)] => pyJsonQuote k ++ ": " ++ jsonDumpsVal v
  | (k, v) :: rest =>
    pyJsonQuote k ++ ": " ++ jsonDumpsVal v ++ ", " ++ jsonDumpsKvs rest

end

/-- json_dumps(v) with default arguments. -/
def json_dumps (v : Json) : String := jsonDumpsVal v

/-- json_dumps(v, sort_keys=True). -/
def json_dumps_sorted (v : Json) : String := jsonDumpsVal (sortJson v)

/-- UTF-8 encoding of one character (code point to bytes). -/
def utf8Char (c : Char) : List Nat :=
  let n := c.toNat
  if n < 128 then [n]
  else if n < 2048 then [192 + n / 64, 128 + n % 64]
  else if n < 65536 then [224 + n / 4096, 128 + (n / 64) % 64, 128 + n % 64]
  else [240 + n / 262144, 128 + (n / 4096) % 64, 128 + (n / 64) % 64, 128 + n % 64]

/-- Python str.encode(): UTF-8 bytes of a string. -/
def utf8Bytes (s : String) : List Nat :=
  s.data.flatMap utf8Char

/-- 2 to the 32nd, the word modulus of SHA-256. -/
def M32 : Nat := 4294967296

/-- 32-bit right rotation. -/
def rotr (n x : Nat) : Nat := x / 2 ^ n + x % 2 ^ n * 2 ^ (32 - n)

/-- SHA-256 round constants. -/
def sha256K : List Nat :=
  [1116352408, 1899447441, 3049323471, 3921009573, 961987163, 1508970993,
   2453635748, 2870763221, 3624381080, 310598401, 607225278, 1426881987,
   1925078388, 2162078206, 2614888103, 3248222580, 3835390401, 4022224774,
   264347078, 604807628, 770255983, 1249150122, 1555081692, 1996064986,
   2554220882, 2821834349, 2952996808, 3210313671, 3336571891, 3584528711,
   113926993, 338241895, 666307205, 773529912, 1294757372, 1396182291,
   1695183700, 1986661051, 2177026350, 2456956037, 2730485921, 2820302411,
   3259730800, 3345764771, 3516065817, 3600352804, 4094571909, 275423344,
   430227734, 506948616, 659060556, 883997877, 958139571, 1322822218,
   1537002063, 1747873779, 1955562222, 2024104815, 2227730452, 2361852424,
   2428436474, 2756734187, 3204031479, 3329325298]

/-- SHA-256 initial hash state. -/
def sha256H0 : List Nat :=
  [1779033703, 3144134277, 1013904242, 2773480762,
   1359893119, 2600822924, 528734635, 1541459225]

/-- Number of zero pad bytes for a message of the given byte length. -/
def sha256PadZeros (len : Nat) : Nat := (120 - (len + 1) % 64) % 64

/-- Big-endian byte rendering of a number with the given width. -/
def beBytes : Nat → Nat → List Nat
  | 0, _ => []
  | w + 1, n => beBytes w (n / 256) ++ [n % 256]

/-- SHA-256 message padding. -/
def sha256Pad (msg : List Nat) : List Nat :=
  msg ++ [128] ++ List.replicate (sha256PadZeros msg.length) 0
      ++ beBytes 8 (msg.length * 8)

/-- Big-endian 32-bit words from bytes. -/
def bytesToWords : List Nat → List Nat
  | b0 :: b1 :: b2 :: b3 :: rest =>
    (b0 * 16777216 + b1 * 65536 + b2 * 256 + b3) :: bytesToWords rest
  | _ => []

/-- Splits a byte list into 64-byte blocks (fuel bounds the block count). -/
def chunks64 : Nat → List Nat → List (List Nat)
  | 0, _ => []
  | _ + 1, [] => []
  | n + 1, xs => xs.take 64 :: chunks64 n (xs.drop 64)

/-- Message-schedule extension: grows w from 16 to 64 words. -/
def sha256ExtendW (w : List Nat) : Nat → List Nat
  | 0 => w
  | k + 1 =>
    let len := w.length
    let w15 := w.getD (len - 15) 0
    let w2 := w.getD (len - 2) 0
    let s0 := rotr 7 w15 ^^^ rotr 18 w15 ^^^ w15 / 2 ^ 3
    let s1 := rotr 17 w2 ^^^ rotr 19 w2 ^^^ w2 / 2 ^ 10
    sha256ExtendW (w ++ [(w.getD (len - 16) 0 + s0 + w.getD (len - 7) 0 + s1) % M32]) k

/-- One SHA-256 compression round; the state is [a,b,c,d,e,f,g,h]. -/
def sha256Round (st : List Nat) (kw : Nat × Nat) : List Nat :=
  let a := st.getD 0 0
  let b := st.getD 1 0
  let c := st.getD 2 0
  let d := st.getD 3 0
  let e := st.getD 4 0
  let f := st.getD 5 0
  let g := st.getD 6 0
  let h := st.getD 7 0
  let S1 := rotr 6 e ^^^ rotr 11 e ^^^ rotr 25 e
  let ch := e &&& f ^^^ (M32 - 1 - e) &&& g
  let temp1 := (h + S1 + ch + kw.1 + kw.2) % M32
  let S0 := rotr 2 a ^^^ rotr 13 a ^^^ rotr 22 a
  let maj := a &&& b ^^^ a &&& c ^^^ b &&& c
  let temp2 := (S0 + maj) % M32
  [(temp1 + temp2) % M32, a, b, c, (d + temp1) % M32, e, f, g]

/-- Processes one 64-byte block into the running hash state. -/
def sha256Block (h : List Nat) (block : List Nat) : List Nat :=
  let w := sha256ExtendW (bytesToWords block) 48
  let st := (sha256K.zip w).foldl sha256Round h
  (h.zip st).map (fun p => (p.1 + p.2) % M32)

/-- SHA-256 digest of a byte list, as eight 32-bit words. -/
def sha256Words (msg : List Nat) : List Nat :=
  let padded := sha256Pad msg
  (chunks64 (padded.length / 64) padded).foldl sha256Block sha256H0

/-- hashlib.sha256(s.encode()).hexdigest(): lowercase hex digest of the
UTF-8 encoding of a string. -/
def sha256hex (s : String) : String :=
  String.join ((sha256Words (utf8Bytes s)).map (toHexW 8))

/-- Test for the NULLS tuple of the external trimming helper: None, empty
string, empty list, empty dict. -/
def isNullVal : Json → Bool
  | .null => true
  | .str "" => true
  | .arr [] => true
  | .obj [] => true
  | _ => false

/-- Python isinstance(v, dict). -/
def isDict : Json → Bool
  | .obj _ => true
  | _ => false

mutual

/-- Modelled from the spec: oauth_dropins.webutil.util.trim_nulls is an
external collaborator, not part of this repository.  Per the spec,
trimming removes empty strings/sequences/maps recursively when requested
and absent vs empty-after-trim is indistinguishable to the caller.  Dict
values are trimmed recursively, dropping entries whose trimmed value is
null/empty; a list is recursed into (and cleaned of null/empty elements)
only when every element is a dict, so tag string-arrays and url-string
lists pass through unchanged. -/
def trim_nulls : Json → Json
  | .obj kvs => .obj (trimKvs kvs)
  | .arr xs =>
    if xs.all isDict then .arr ((trimList xs).filter (fun v => !isNullVal v))
    else .arr xs
  | v => v

def trimList : List Json → List Json
  | [] => []
  | x :: rest => trim_nulls x :: trimList rest

def trimKvs : List (String × Json) → List (String × Json)
  | [] => []
  | (k, v) :: rest =>
    let v' := trim_nulls v
    if isNullVal v' then trimKvs rest else (k, v') :: trimKvs rest

end

/-- Python-visible failure modes of the embedded functions. -/
inductive PyErr where
  | keyErr (k : String)
  | indexErr
  | typeErr
  | valueErr
  | unboundLocal (name : String)
  | recursionLimit
deriving Repr, DecidableEq

deriving instance DecidableEq for Except

/-! ### nostr.py -/

/-- NIP-19 bech32 prefixes (nostr.py BECH32_PREFIXES). -/
def BECH32_PREFIXES : List String :=
  ["naddr", "nevent", "note", "nprofile", "npub", "nrelay", "nsec"]

/-- NIP-39 platform to base URL map (nostr.py PLATFORMS), in dict literal
order. -/
def PLATFORMS : List (String × String) :=
  [("github", "https://github.com/"),
   ("telegram", "https://t.me/"),
   ("twitter", "https://twitter.com/"),
   ("mastodon", "https://")]

/-- Key set required by the assertion in nostr.py id_for. -/
def NOSTR_EVENT_FIELDS : List String :=
  ["content", "created_at", "kind", "pubkey", "tags"]

/-- nostr.py id_for: generates the NIP-01 id of an event.  The source first
runs event.setdefault('tags', []) (mutating its argument — the post-call
event is returned as the second component), asserts that the keys are
exactly the five NIP-01 fields (a failed assertion is modeled as a none
first component), and hashes the canonical six-element array
serialization. -/
def id_for (event : PyDict) : Option String × PyDict :=
  let e := setdefault event "tags" (Json.arr [])
  if keySetEq (keys e) NOSTR_EVENT_FIELDS then
    (some (sha256hex (json_dumps (Json.arr
      [Json.num 0, dictGet e "pubkey", dictGet e "created_at", dictGet e "kind",
       dictGet e "tags", dictGet e "content"]))), e)
  else (none, e)

/-- nostr.py id_from_as1: converts a bech32-ish id to a bare hex id by
stripping an optional nostr: URI scheme and then each bech32 prefix in
order; falsy input (None, empty string) is returned unchanged. -/
def id_from_as1 (id : Json) : Json :=
  if !truthy id then id
  else match id with
    | .str s =>
      let s := removePrefixPy s "nostr:"
      .str (BECH32_PREFIXES.foldl removePrefixPy s)
    | v => v

/-! ### a small JSON parser standing in for json_loads

The source calls oauth_dropins.webutil.util.json_loads (stdlib json.loads)
on event content.  The embedding parses objects, arrays, strings, integers
and literals; a float literal is rejected (no claim involves one).  An
invalid document is modeled as a ValueError. -/

/-- Whitespace skipping of the scanner. -/
def skipWs : List Char → List Char
  | c :: rest =>
    if c = ' ' || c = '\n' || c = '\t' || c = '\r' then skipWs rest else c :: rest
  | [] => []

/-- Greedy decimal digit scan with accumulator. -/
def scanDigits : Nat → List Char → Nat × Nat × List Char
  | acc, c :: rest =>
    if c.isDigit then
      let (v, n, cs) := scanDigits (acc * 10 + (c.toNat - 48)) rest
      (v, n + 1, cs)
    else (acc, 0, c :: rest)
  | acc, [] => (acc, 0, [])

/-- Reads four hex digits. -/
def scanHex4 : List Char → Option (Nat × List Char)
  | a :: b :: c :: d :: rest =>
    let hv : Char → Option Nat := fun ch =>
      if ch.isDigit then some (ch.toNat - 48)
      else if 'a' ≤ ch && ch ≤ 'f' then some (ch.toNat - 87)
      else if 'A' ≤ ch && ch ≤ 'F' then some (ch.toNat - 55)
      else none
    match hv a, hv b, hv c, hv d with
    | some x, some y, some z, some w => some (x * 4096 + y * 256 + z * 16 + w, rest)
    | _, _, _, _ => none
  | _ => none

/-- JSON string body scanner (after the opening quote). -/
def scanJString : Nat → List Char → Option (List Char × List Char)
  | 0, _ => none
  | _ + 1, [] => none
  | _ + 1, '"' :: rest => some ([], rest)
  | fuel + 1, '\\' :: e :: rest =>
    let simple : Option (Char × List Char) :=
      if e = '"' then some ('"', rest)
      else if e = '\\' then some ('\\', rest)
      else if e = '/' then some ('/', rest)
      else if e = 'n' then some ('\n', rest)
      else if e = 't' then some ('\t', rest)
      else if e = 'r' then some ('\r', rest)
      else if e = 'b' then some (Char.ofNat 8, rest)
      else if e = 'f' then some (Char.ofNat 12, rest)
      else none
    match simple with
    | some (c, cs) =>
      match scanJString fuel cs with
      | some (out, cs') => some (c :: out, cs')
      | none => none
    | none =>
      if e = 'u' then
        match scanHex4 rest with
        | some (hi, cs) =>
          if 55296 ≤ hi && hi ≤ 56319 then
            match cs with
            | '\\' :: 'u' :: cs' =>
              match scanHex4 cs' with
              | some (lo, cs'') =>
                if 56320 ≤ lo && lo ≤ 57343 then
                  match scanJString fuel cs'' with
                  | some (out, rest') =>
                    some (Char.ofNat (65536 + (hi - 55296) * 1024 + (lo - 56320)) :: out, rest')
                  | none => none
                else none
              | none => none
            | _ => none
          else
            match scanJString fuel cs with
            | some (out, rest') => some (Char.ofNat hi :: out, rest')
            | none => none
        | none => none
      else none
  | fuel + 1, c :: rest =>
    match scanJString fuel rest with
    | some (out, cs) => some (c :: out, cs)
    | none => none

mutual

/-- Recursive-descent JSON value parser. -/
def parseJson : Nat → List Char → Option (Json × List Char)
  | 0, _ => none
  | fuel + 1, cs =>
    match skipWs cs with
    | [] => none
    | c :: rest =>
      if c = 'n' then
        if ['u', 'l', 'l'].isPrefixOf rest then some (.null, rest.drop 3) else none
      else if c = 't' then
        if ['r', 'u', 'e'].isPrefixOf rest then some (.bool true, rest.drop 3) else none
      else if c = 'f' then
        if ['a', 'l', 's', 'e'].isPrefixOf rest then some (.bool false, rest.drop 4) else none
      else if c = '"' then
        match scanJString (rest.length + 1) rest with
        | some (out, cs') => some (.str ⟨out⟩, cs')
        | none => none
      else if c = '[' then
        match skipWs rest with
        | ']' :: cs' => some (.arr [], cs')
        | cs' => match parseArrItems fuel cs' with
                 | some (xs, cs'') => some (.arr xs, cs'')
                 | none => none
      else if c = '\x7b' then
        match skipWs rest with
        | '\x7d' :: cs' => some (.obj [], cs')
        | cs' => match parseObjItems fuel cs' with
                 | some (kvs, cs'') => some (.obj kvs, cs'')
                 | none => none
      else if c = '-' then
        match rest with
        | d :: _ =>
          if d.isDigit then
            let (v, _, cs') := scanDigits 0 rest
            match cs' with
            | e :: _ => if e = '.' || e = 'e' || e = 'E' then none else some (.num (-(v : Int)), cs')
            | [] => some (.num (-(v : Int)), [])
          else none
        | [] => none
      else if c.isDigit then
        let (v, _, cs') := scanDigits 0 (c :: rest)
        match cs' with
        | e :: _ => if e = '.' || e = 'e' || e = 'E' then none else some (.num (v : Int), cs')
        | [] => some (.num (v : Int), [])
      else none

/-- Comma-separated array items, consuming the closing bracket. -/
def parseArrItems : Nat → List Char → Option (List Json × List Char)
  | 0, _ => none
  | fuel + 1, cs =>
    match parseJson fuel cs with
    | some (v, cs') =>
      match skipWs cs' with
      | ',' :: cs'' =>
        match parseArrItems fuel cs'' with
        | some (xs, rest) => some (v :: xs, rest)
        | none => none
      | ']' :: cs'' => some ([v], cs'')
      | _ => none
    | none => none

/-- Comma-separated object members, consuming the closing brace. -/
def parseObjItems : Nat → List Char → Option (List (String × Json) × List Char)
  | 0, _ => none
  | fuel + 1, cs =>
    match skipWs cs with
    | '"' :: cs₁ =>
      match scanJString (cs₁.length + 1) cs₁ with
      | some (kout, cs₂) =>
        match skipWs cs₂ with
        | ':' :: cs₃ =>
          match parseJson fuel cs₃ with
          | some (v, cs₄) =>
            match skipWs cs₄ with
            | ',' :: cs₅ =>
              match parseObjItems fuel cs₅ with
              | some (kvs, rest) => some ((⟨kout⟩, v) :: kvs, rest)
              | none => none
            | '\x7d' :: cs₅ => some ([(⟨kout⟩, v)], cs₅)
            | _ => none
          | none => none
        | _ => none
      | none => none
    | _ => none

end

/-- Days since the Unix epoch from a civil date. -/
def daysFromCivil (y : Int) (m d : Nat) : Int :=
  let y' := y - (if m ≤ 2 then 1 else 0)
  let era := y'.fdiv 400
  let yoe := (y' - era * 400).toNat
  let mp := if m > 2 then m - 3 else m + 9
  let doy := (153 * mp + 2) / 5 + d - 1
  let doe := yoe * 365 + yoe / 4 - yoe / 100 + doy
  era * 146097 + (doe : Int) - 719468

/-- Digit run of a string region interpreted as a number. -/
def natOfChars (cs : List Char) : Nat :=
  cs.foldl (fun acc c => if c.isDigit then acc * 10 + (c.toNat - 48) else acc) 0

/-- Modelled from the spec: int(util.parse_iso8601(published).timestamp())
is computed by an external collaborator; the spec only requires timestamps
to be integer Unix seconds.  Parses YYYY-MM-DDTHH:MM:SS (UTC assumed). -/
def parseIsoToTimestamp (s : String) : Int :=
  let cs := s.data
  let y := natOfChars (cs.take 4)
  let mo := natOfChars ((cs.drop 5).take 2)
  let d := natOfChars ((cs.drop 8).take 2)
  let h := natOfChars ((cs.drop 11).take 2)
  let mi := natOfChars ((cs.drop 14).take 2)
  let sec := natOfChars ((cs.drop 17).take 2)
  daysFromCivil (y : Int) mo d * 86400 + ((h * 3600 + mi * 60 + sec : Nat) : Int)

/-! ### modelled granary.as1 / source helpers

The as1 and source modules of this repository are not under src/ (only
their callers are), so the helpers below are modelled from the spec. -/

/-- Python str coercion used only where the source requires a string. -/
def asStr : Json → String
  | .str s => s
  | _ => ""

/-- Modelled from the spec: granary.as1.ACTOR_TYPES is not under src/;
per the spec, kind-0 profile events correspond to person-like actor
objects. -/
def ACTOR_TYPES : List String :=
  ["application", "group", "organization", "person", "service"]

/-- Modelled from the spec: granary.as1.object_type / source.object_type
are not under src/.  Per the spec the canonical pair is (objectType,
verb): dispatch keys on the verb for activities and on objectType
otherwise. -/
def object_type (obj : Json) : Option String :=
  let v := dictGet (asObj obj) "verb"
  let t := dictGet (asObj obj) "objectType"
  match (if truthy v then v else t) with
  | .str s => if s = "" then none else some s
  | _ => none

/-- Modelled from the spec: granary.as1.get_object is not under src/.
Returns the named field normalized to a dict: the first element when the
value is a list, an id-wrapping dict when it is a string, an empty dict
when missing or falsy. -/
def get_object (obj : Json) (field : String := "object") : Json :=
  let val := dictGet (asObj obj) field
  let val := match val with
             | .arr xs => xs.headD .null
             | v => v
  match val with
  | .str s => .obj [("id", .str s)]
  | .obj kvs => .obj kvs
  | _ => .obj []

/-- Modelled from the spec: granary.as1.get_owner is not under src/.  The
owner of an actor object is its own id; otherwise the author's or actor's
id. -/
def get_owner (obj : Json) : Json :=
  if ACTOR_TYPES.contains (asStr (dictGet (asObj obj) "objectType")) then
    dictGet (asObj obj) "id"
  else
    pyOr (dictGet (asObj (get_object obj "author")) "id")
         (dictGet (asObj (get_object obj "actor")) "id")

/-- Modelled from the spec: oauth_dropins.webutil.util.get_url is an
external collaborator; it extracts the url string of a field whose value
may be a string, a dict with a url, or a list of those. -/
def get_url (obj : Json) (field : String) : Json :=
  let v := dictGet (asObj obj) field
  let v := match v with
           | .arr xs => xs.headD .null
           | w => w
  match v with
  | .str s => .str s
  | .obj kvs => dictGet kvs "url"
  | _ => .null

/-- Modelled from the spec: granary.as1.object_urls is not under src/.
Collects the url strings of an object: the url field (string or dict
url), then each entry of urls. -/
def object_urls (obj : Json) : List String :=
  let first := match get_url obj "url" with
               | .str s => if s = "" then [] else [s]
               | _ => []
  let more := (asList (dictGet (asObj obj) "urls")).filterMap fun u =>
    match u with
    | .str s => if s = "" then none else some s
    | .obj kvs => match dictGet kvs "value" with
                  | .str s => if s = "" then none else some s
                  | _ => none
    | _ => none
  first ++ more

mutual

/-- Structure size of a value, the fuel bound for functions whose source
recurses through nested values. -/
def jsize : Json → Nat
  | .arr xs => 1 + jsizeList xs
  | .obj kvs => 1 + jsizeKvs kvs
  | _ => 1

def jsizeList : List Json → Nat
  | [] => 0
  | x :: rest => 1 + jsize x + jsizeList rest

def jsizeKvs : List (String × Json) → Nat
  | [] => 0
  | (_, v) :: rest => 1 + jsize v + jsizeKvs rest

end

theorem jsize_pos (j : Json) : 1 ≤ jsize j := by
  cases j <;> simp [jsize]

/-! ### nostr.py from_as1 / to_as1 -/

/-- Appends a tag to event['tags'] in place, as event['tags'].append(tag). -/
def appendTag (event : PyDict) (tag : Json) : PyDict :=
  dictSet event "tags" (.arr (asList (dictGet event "tags") ++ [tag]))

/-- nostr.py from_as1: converts an AS1 object or activity to a Nostr
event.  Fuel bounds the recursion depth through nested share targets
(exhaustion is Python's RecursionError).  Referencing the unbound
orig_event variable in the reply-author branch is modeled as
UnboundLocalError. -/
def from_as1F : Nat → Json → Except PyErr Json
  | 0, _ => throw .recursionLimit
  | n + 1, obj => do
    let o := asObj obj
    let type := object_type obj
    let event : PyDict :=
      [("id", id_from_as1 (dictGet o "id")),
       ("pubkey", id_from_as1 (get_owner obj)),
       ("tags", .arr [])]
    let published := dictGet o "published"
    let event :=
      if truthy published then
        dictSet event "created_at" (.num (parseIsoToTimestamp (asStr published)))
      else event
    let event ← do
      if type.any (fun t => ACTOR_TYPES.contains t) then
        let nip05 := asStr (dictGet o "username" (.str ""))
        let nip05 := if !strContains nip05 '@' then "_@" ++ nip05 else nip05
        let event := dictUpdate event
          [("kind", .num 0),
           ("pubkey", dictGet event "id"),
           ("content", .str (json_dumps_sorted (.obj
              [("name", dictGet o "displayName"),
               ("about", dictGet o "description"),
               ("picture", get_url obj "image"),
               ("nip05", .str nip05)])))]
        let event := (object_urls obj).foldl (fun ev url =>
          PLATFORMS.foldl (fun ev pb =>
            if pb.1 ≠ "mastodon" && pyStartsWith url pb.2 then
              appendTag ev (.arr [.str "i",
                .str (pb.1 ++ ":" ++ removePrefixPy url pb.2), .str "-"])
            else ev) ev) event
        pure event
      else if type = some "article" || type = some "note" then
        let event := dictUpdate event
          [("kind", .num (if type = some "note" then 1 else 30023)),
           ("content", pyOr (dictGet o "content")
                            (pyOr (dictGet o "summary") (dictGet o "displayName")))]
        let in_reply_to := get_object obj "inReplyTo"
        let event ← do
          if truthy in_reply_to then
            let id := id_from_as1 (dictGet (asObj in_reply_to) "id")
            let event := appendTag event (.arr [.str "e", id, .str "TODO relay", .str "reply"])
            let author := dictGet (asObj (get_object in_reply_to "author")) "id"
            if truthy author then
              throw (.unboundLocal "orig_event")
            else
              pure event
          else pure event
        let event :=
          if type = some "article" && truthy published then
            appendTag event (.arr [.str "published_at",
              .str (pyFormat (dictGet event "created_at"))])
          else event
        let event := ["title", "summary"].foldl (fun ev field =>
          let val := dictGet o field
          if truthy val then appendTag ev (.arr [.str field, val]) else ev) event
        pure event
      else if type = some "share" then
        let event := dictUpdate event [("kind", .num 6)]
        let inner_obj := get_object obj
        if truthy inner_obj then
          let orig_event ← from_as1F n inner_obj
          let oe := asObj orig_event
          pure (dictUpdate event
            [("content", .str (json_dumps_sorted orig_event)),
             ("tags", .arr
               [.arr [.str "e", dictGet oe "id", .str "TODO relay", .str "mention"],
                .arr [.str "p", dictGet oe "pubkey"]])])
        else pure event
      else if type = some "like" || type = some "dislike" || type = some "react" then
        let liked := dictGet (asObj (get_object obj)) "id"
        pure (dictUpdate event
          [("kind", .num 7),
           ("content", if type = some "like" then .str "+"
                       else if type = some "dislike" then .str "-"
                       else dictGet o "content"),
           ("tags", .arr [.arr [.str "e", id_from_as1 liked]])])
      else pure event
    return trim_nulls (.obj event)

/-- from_as1 entry point; the size of the object bounds its nesting
depth, so the fuel never runs out on the source's own recursion. -/
def from_as1 (obj : Json) : Except PyErr Json :=
  from_as1F (jsize obj) obj

/-- Stable insertion of an element into a key-ordered list: an element goes
after every already-placed element whose key is less or equal, which is
exactly the stability contract of Python list.sort. -/
def insSorted (le : Json → Json → Bool) (x : Json) : List Json → List Json
  | [] => [x]
  | y :: ys => if le y x then y :: insSorted le x ys else x :: y :: ys

/-- Stable ascending sort (Python list.sort with a key function). -/
def stableSortBy (le : Json → Json → Bool) (xs : List Json) : List Json :=
  xs.foldl (fun acc x => insSorted le x acc) []

/-- microformats2.py get_string_urls: extracts string URLs from a list of
either string URLs or embedded mf2 objects, recursing into the url
property of typed items. -/
def get_string_urlsF : Nat → List Json → List String
  | 0, _ => []
  | n + 1, objs =>
    objs.foldl (fun urls item =>
      match item with
      | .str s => urls ++ [s]
      | .obj kvs =>
        let itemtype := (asList (dictGet kvs "type" (.arr []))).filter
          (fun x => pyStartsWith (asStr x) "h-")
        if !itemtype.isEmpty then
          let item' := pyOr (dictGet kvs "properties") (.obj kvs)
          urls ++ get_string_urlsF n (asList (dictGet (asObj item') "url" (.arr [])))
        else urls
      | _ => urls) []

/-- get_string_urls entry point (fuel bounds nesting of embedded items). -/
def get_string_urls (objs : List Json) : List String :=
  get_string_urlsF (jsizeList objs + 1) objs

/-- microformats2.py get_html: returns the html (or value) member of an
mf2 content dict, or the value itself when it is not a dict. -/
def get_html : Json → Json
  | .obj kvs => pyOr (dictGet kvs "html") (dictGet kvs "value")
  | v => v

/-- microformats2.py get_text: returns the value member of an mf2 content
dict, or the value itself when it is not a dict. -/
def get_text : Json → Json
  | .obj kvs => dictGet kvs "value"
  | v => v

/-- microformats2.py first_props: converts a multiply-valued properties
dict to singly valued, taking the first element of each list and the
empty string for a falsy value. -/
def first_props (props : Json) : PyDict :=
  match props with
  | .obj kvs =>
    kvs.map (fun kv => (kv.1,
      if !truthy kv.2 then Json.str ""
      else match kv.2 with
           | .arr (x :: _) => x
           | v => v))
  | _ => []

/-- Modelled from the spec: urlparse.urlparse(url).netloc is a stdlib
call; the network location is nonempty exactly when, after an optional
scheme prefix, the string continues with two slashes followed by a
character that does not immediately end the netloc. -/
def hasNetloc (url : String) : Bool :=
  let cs := url.data
  let isSchemeChar : Char → Bool := fun c =>
    c.isAlphanum || c = '+' || c = '-' || c = '.'
  let rest :=
    match cs with
    | c :: _ =>
      if c.isAlpha then
        let pre := cs.takeWhile isSchemeChar
        match cs.drop pre.length with
        | ':' :: r => r
        | _ => cs
      else cs
    | [] => []
  match rest with
  | '/' :: '/' :: c :: _ => !(c = '/' || c = '?' || c = '#')
  | _ => false

/-- Ordered mf2-type table of json_to_object (microformats2.py lines
229-237): maps an mf2 type token to the AS objectType and optional verb,
in priority order. -/
def types_map (rsvp_verb : Option String) : List (String × String × Option String) :=
  [("h-as-rsvp", "activity", rsvp_verb),
   ("h-as-share", "activity", some "share"),
   ("h-as-like", "activity", some "like"),
   ("h-as-comment", "comment", none),
   ("h-as-reply", "comment", none),
   ("h-as-location", "place", none),
   ("h-card", "person", none)]

/-- Ordered property-presence fallback table of json_to_object
(microformats2.py lines 241-247). -/
def prop_types_map (rsvp_verb : Option String) : List (String × String × Option String) :=
  [("rsvp", "activity", rsvp_verb),
   ("invitee", "activity", some "invite"),
   ("repost-of", "activity", some "share"),
   ("like-of", "activity", some "like"),
   ("in-reply-to", "comment", none)]

/-- Two-tier first-match-wins type resolution of json_to_object
(microformats2.py lines 249-259): the ordered mf2-type table is consulted
first, then the ordered property-presence table, then the default, which
is note when the h-as-note token is present and article otherwise. -/
def resolve_type (types : List Json) (props : PyDict) (rsvp_verb : Option String) :
    String × Option String :=
  match (types_map rsvp_verb).find? (fun e => types.contains (Json.str e.1)) with
  | some e => (e.2.1, e.2.2)
  | none =>
    match (prop_types_map rsvp_verb).find? (fun e => hasKey props e.1) with
    | some e => (e.2.1, e.2.2)
    | none => (if types.contains (Json.str "h-as-note") then "note" else "article", none)

/-- Relation properties collected into the target list of a decoded
activity (microformats2.py lines 284-286). -/
def TARGET_FIELDS : List String :=
  ["like", "like-of", "repost", "repost-of", "in-reply-to", "invitee"]

/-- Conversion of one collected target (microformats2.py line 287): a dict
target is decoded recursively, a bare value becomes a url dict. -/
def convTargetWith (f : Json → Json) (t : Json) : Json :=
  if isDict t then f t else .obj [("url", t)]

/-- Target collection loop of json_to_object (microformats2.py lines
283-290): chains the relation properties in order, converts each target,
and appends it only when no structurally equal target was collected. -/
def collect_objectsWith (f : Json → Json) (props : PyDict) : List Json :=
  (TARGET_FIELDS.flatMap (fun field => asList (dictGet props field (.arr [])))).foldl
    (fun objects target =>
      let t := convTargetWith f target
      if objects.contains t then objects else objects ++ [t]) []

/-- Pre-trim result dict of json_to_object (microformats2.py lines
220-300), with the recursion into nested items passed as rec_. -/
def json_to_object_bodyWith (rec_ : Json → Json) (m : PyDict) : PyDict :=
  let props := asObj (dictGet m "properties" (.obj []))
  let prop := first_props (.obj props)
  let rsvp := dictGet prop "rsvp"
  let rsvp_verb := if truthy rsvp then some ("rsvp-" ++ pyFormat rsvp) else none
  let author := rec_ (dictGet prop "author")
  let types := asList (dictGet m "type" (.arr []))
  let tv := resolve_type types props rsvp_verb
  let photos := (get_string_urls (asList (dictGet props "photo" (.arr [])))).filter hasNetloc
  let urls : Option (List String) :=
    match getKV props "url" with
    | none => none
    | some v => if truthy v then some (get_string_urls (asList v)) else none
  let obj : PyDict :=
    [("id", dictGet prop "uid"),
     ("objectType", .str tv.1),
     ("verb", match tv.2 with | some s => .str s | none => .null),
     ("published", dictGet prop "published" (.str "")),
     ("updated", dictGet prop "updated" (.str "")),
     ("displayName", get_text (dictGet prop "name")),
     ("summary", get_text (dictGet prop "summary")),
     ("content", get_html (dictGet prop "content")),
     ("url", match urls with | some (u :: _) => .str u | _ => .null),
     ("image", .obj [("url", match photos with | p :: _ => .str p | [] => .null)]),
     ("location", rec_ (dictGet prop "location")),
     ("replies", .obj [("items",
        .arr ((asList (dictGet props "comment" (.arr []))).map rec_))])]
  if tv.1 = "activity" then
    let objects := collect_objectsWith rec_ props
    dictUpdate obj
      [("object", match objects with | [x] => x | xs => .arr xs),
       ("actor", author)]
  else
    dictUpdate obj
      [("inReplyTo", .arr ((get_string_urls
          (asList (dictGet props "in-reply-to" (.arr [])))).map
          (fun u => .obj [("url", .str u)]))),
       ("author", author)]

/-- First-occurrence deduplication: the specification of the collection
loop above (first-seen order preserved, an element structurally equal to
an earlier one dropped). -/
def dedupKeepFirst : List Json → List Json
  | [] => []
  | x :: xs => x :: dedupKeepFirst (xs.filter (fun y => y ≠ x))
termination_by xs => xs.length
decreasing_by
  simp only [List.length_cons]
  exact Nat.lt_succ_of_le (List.length_filter_le _ _)

/-- microformats2.py json_to_object: converts an mf2 item to an AS1
object.  Fuel bounds the recursion depth through nested author/location/
comment/target items (always sufficient, since every recursive call is on
a nested subvalue). -/
def json_to_objectF : Nat → Json → Json
  | 0, _ => .obj []
  | n + 1, mf2 =>
    if !truthy mf2 || !isDict mf2 then .obj []
    else trim_nulls (.obj (json_to_object_bodyWith (json_to_objectF n) (asObj mf2)))

/-- json_to_object entry point. -/
def json_to_object (mf2 : Json) : Json :=
  json_to_objectF (jsize mf2) mf2

/-! ### microformats2.py HTML rendering helpers -/

/-- xml.sax.saxutils.escape with the default entity map. -/
def saxEscape (s : String) : String :=
  pyReplace (pyReplace (pyReplace s "&" "&amp;") "<" "&lt;") ">" "&gt;"

/-- xml.sax.saxutils.unescape with the default entity map (amp last). -/
def saxUnescape (s : String) : String :=
  pyReplace (pyReplace (pyReplace s "&lt;" "<") "&gt;" ">") "&amp;" "&"

/-- xml.sax.saxutils.quoteattr. -/
def quoteattr (s : String) : String :=
  let d := pyReplace (pyReplace (pyReplace (saxEscape s) "\n" "&#10;") "\r" "&#13;") "\t" "&#9;"
  if strContains d '"' then
    if strContains d '\x27' then "\"" ++ pyReplace d "\"" "&quot;" ++ "\""
    else "\x27" ++ d ++ "\x27"
  else "\"" ++ d ++ "\""

/-- microformats2.py img. -/
def img (src : Json) (cls : String) (alt : Json) : String :=
  "<img class=\"" ++ cls ++ "\" src=\"" ++ pyFormat src ++ "\" alt=" ++
    quoteattr (asStr (pyOr alt (.str ""))) ++ " />"

/-- microformats2.py vid. -/
def vid (src poster : Json) (cls : String) : String :=
  let html := "<video class=\"" ++ cls ++ "\" src=\"" ++ pyFormat src ++ "\""
  let html := if truthy poster then html ++ " poster=\"" ++ pyFormat poster ++ "\"" else html
  let html := html ++ " controls>"
  let html := html ++ "Your browser does not support the video tag. "
  let html := html ++ "<a href=\"" ++ pyFormat src ++ "\">Click here to view directly"
  let html := if truthy poster then html ++ "<img src=\"" ++ pyFormat poster ++ "\"/>" else html
  html ++ "</a></video>"

/-- microformats2.py maybe_linked: wraps text in an anchor iff a non-empty
url is provided. -/
def maybe_linked (text url : Json) (linked_classname unlinked_classname : Option String) :
    String :=
  if truthy url then
    let cls := match linked_classname with
               | some c => " class=\"" ++ c ++ "\""
               | none => ""
    "<a" ++ cls ++ " href=\"" ++ pyFormat url ++ "\">" ++ pyFormat text ++ "</a>"
  else match unlinked_classname with
       | some c => "<span class=\"" ++ c ++ "\">" ++ pyFormat text ++ "</span>"
       | none => pyFormat text

/-- microformats2.py maybe_linked_name: p-name with an optional u-url. -/
def maybe_linked_name (props : PyDict) : String :=
  let prop := first_props (.obj props)
  let name := dictGet prop "name"
  let url := dictGet prop "url"
  let html :=
    if truthy name then maybe_linked name url (some "p-name u-url") (some "p-name")
    else maybe_linked (pyOr url (.str "")) url (some "u-url") none
  let extra_urls := (asList (dictGet props "url" (.arr []))).drop 1
  if !extra_urls.isEmpty then
    html ++ "\n" ++ joinSep "\n"
      (extra_urls.map (fun u => maybe_linked (.str "") u (some "u-url") none))
  else html

/-- microformats2.py maybe_datetime. -/
def maybe_datetime (s : Json) (classname : String) : String :=
  if truthy s then
    "<time class=\"" ++ classname ++ "\" datetime=\"" ++ pyFormat s ++ "\">" ++
      pyFormat s ++ "</time>"
  else ""

/-- microformats2.py tags_to_html: anchors for the tags that carry a url. -/
def tags_to_html (tags : List Json) (classname : String) : String :=
  String.join (tags.filterMap (fun t =>
    if truthy (dictGet (asObj t) "url") then
      some ("\n<a class=\"" ++ classname ++ "\" href=\"" ++
        pyFormat (dictGet (asObj t) "url") ++ "\">" ++
        pyFormat (dictGet (asObj t) "displayName" (.str "")) ++ "</a>")
    else none))

/-- microformats2.py hcard_to_html: renders an h-card with the HCARD
template (a missing properties member, a KeyError in Python, is read as
empty here; no claim reaches that corner). -/
def hcard_to_html (hcard : Json) (parent_props : List String := []) : String :=
  if !truthy hcard then "" else
  let props := asObj (dictGet (asObj hcard) "properties" (.obj []))
  let photo := dictGet (first_props (.obj props)) "photo"
  let types := joinSep " "
    (parent_props ++ (asList (dictGet (asObj hcard) "type" (.arr []))).map asStr)
  "  <span class=\"" ++ types ++ "\">\n    " ++ maybe_linked_name props ++ "\n    " ++
    (if truthy photo then img photo "u-photo" (.str "") else "") ++ "\n  </span>\n"

/-- Integer reading of a sort key (mention startIndex). -/
def intOfJson : Json → Int
  | .num n => n
  | _ => 0

/-- Natural reading of a span bound. -/
def natOfJson : Json → Nat
  | .num n => n.toNat
  | _ => 0

/-- Python s[a:b] on code points (clamping, nonnegative bounds). -/
def pySlice (s : String) (a b : Nat) : String := ⟨(s.data.take b).drop a⟩

/-- Python s[a:]. -/
def pySliceFrom (s : String) (a : Nat) : String := ⟨s.data.drop a⟩

/-- Mention splicing loop of render_content (microformats2.py lines
569-581): walks the content left to right with a cursor, copying untouched
spans and wrapping each tagged span in an anchor. -/
def spliceMentions (orig : String) (mentions : List Json) : String :=
  let step := mentions.foldl (fun (acc : String × Nat) tag =>
    let start := natOfJson (dictGet (asObj tag) "startIndex")
    let stop := start + natOfJson (dictGet (asObj tag) "length")
    (acc.1 ++ pySlice orig acc.2 start ++
      "<a href=\"" ++ pyFormat (dictGet (asObj tag) "url") ++ "\">" ++
      pySlice orig start stop ++ "</a>", stop)) ("", 0)
  step.1 ++ pySliceFrom orig step.2

/-- Insertion-ordered tag grouping dict of render_content (maps
source.object_type result, possibly None, to the tag list). -/
def groupAdd (groups : List (Option String × List Json)) (k : Option String) (t : Json) :
    List (Option String × List Json) :=
  match groups with
  | [] => [(k, [t])]
  | (k', ts) :: rest =>
    if k' = k then (k', ts ++ [t]) :: rest else (k', ts) :: groupAdd rest k t

/-- Python tags.pop(key, []): the removed list and the remaining groups. -/
def groupPop (groups : List (Option String × List Json)) (k : Option String) :
    List Json × List (Option String × List Json) :=
  match groups with
  | [] => ([], [])
  | (k', ts) :: rest =>
    if k' = k then (ts, rest)
    else
      let r := groupPop rest k
      (r.1, (k', ts) :: r.2)

/-- Encode-direction type table of object_to_json (microformats2.py lines
113-124). -/
def enc_types_map (entry_class : String) : List (String × List String) :=
  [("article", [entry_class, "h-as-article"]),
   ("comment", [entry_class, "h-as-comment"]),
   ("like", [entry_class, "h-as-like"]),
   ("note", [entry_class, "h-as-note"]),
   ("person", ["h-card"]),
   ("place", ["h-card", "h-as-location"]),
   ("share", [entry_class, "h-as-share"]),
   ("rsvp-yes", [entry_class, "h-as-rsvp"]),
   ("rsvp-no", [entry_class, "h-as-rsvp"]),
   ("rsvp-maybe", [entry_class, "h-as-rsvp"]),
   ("invite", [entry_class])]

/-- microformats2.py object_to_json: converts an AS1 object to an mf2
item; the arguments after the recursion parameters are trim_nulls,
entry_class and default_object_type.  The recursive conversions into
nested author, location, reply, tag and target objects are passed as otj
(object encoding) and rc (content rendering). -/
def object_to_json_bodyWith (otj : Bool -> String -> Option String -> Json -> Json)
    (rc : Json -> Bool -> String)
    (trimFlag : Bool) (entry_class : String) (default_object_type : Option String)
    (obj : Json) : Json :=
  if !truthy obj then .obj [] else
  let o := asObj obj
  let obj_type := (object_type obj).orElse (fun _ => default_object_type)
  let pr :=
    if obj_type = some "post" then
      let primary := dictGet o "object" (.obj [])
      ((object_type primary).orElse (fun _ => default_object_type), primary)
    else (obj_type, obj)
  let obj_type := pr.1
  let primary := pr.2
  let types :=
    match obj_type.bind (fun t => (enc_types_map entry_class).find? (fun e => e.1 = t)) with
    | some e => e.2
    | none => [entry_class]
  let p := asObj primary
  let url := (getKV o "url").getD (dictGet p "url" (.str ""))
  let content := dictGet p "content" (.str "")
  let name := (getKV p "displayName").getD (dictGet p "title")
  let summary := dictGet p "summary"
  let author := (getKV o "author").getD (dictGet o "actor" (.obj []))
  let in_reply_tos := asList ((getKV o "inReplyTo").getD
    (dictGet (asObj (dictGet o "context" (.obj []))) "inReplyTo" (.arr [])))
  let in_reply_tos :=
    if types.contains "h-as-rsvp" && hasKey o "object" then
      in_reply_tos ++ [dictGet o "object"]
    else in_reply_tos
  let image := (getKV o "image").getD (dictGet p "image" (.obj []))
  let stream := (getKV o "stream").getD (dictGet p "stream" (.obj []))
  let properties : PyDict :=
    [("uid", .arr [dictGet o "id" (.str "")]),
     ("name", .arr [name]),
     ("summary", .arr [summary]),
     ("url", .arr ([url] ++ asList (dictGet o "upstreamDuplicates" (.arr [])))),
     ("photo", .arr [dictGet (asObj image) "url" (.str "")]),
     ("video", .arr [dictGet (asObj stream) "url"]),
     ("published", .arr [(getKV o "published").getD (dictGet p "published" (.str ""))]),
     ("updated", .arr [(getKV o "updated").getD (dictGet p "updated" (.str ""))]),
     ("content", .arr [.obj
       [("value", .str (saxUnescape (asStr content))),
        ("html", .str (rc primary false))]]),
     ("in-reply-to", trim_nulls (.arr (in_reply_tos.map (fun irt =>
       match irt with | .obj kvs => dictGet kvs "url" | _ => .null)))),
     ("author", .arr [otj false "h-entry" (some "person") author]),
     ("location", .arr [otj false "h-entry" (some "place")
       (dictGet p "location" (.obj []))]),
     ("comment", .arr
       ((asList (dictGet (asObj (dictGet o "replies" (.obj []))) "items" (.arr []))).map
         (otj false "h-cite" none)))]
  let properties :=
    if types.contains "h-as-rsvp" then
      dictSet properties "rsvp" (.arr [.str ((obj_type.getD "").drop 5)])
    else if obj_type = some "invite" then
      dictSet properties "invitee"
        (.arr [otj false "h-entry" (some "person") (dictGet o "object")])
    else properties
  let properties := [("like", "like"), ("share", "repost")].foldl
    (fun properties tp =>
      if obj_type = some tp.1 then
        let objs := match dictGet o "object" (.arr []) with
                    | .arr xs => xs
                    | v => [v]
        let vals := objs.map (fun t =>
          match t with
          | .obj kvs =>
            if hasKey kvs "url" && (keys kvs).all (fun k => k = "url" || k = "objectType") then
              dictGet kvs "url"
            else otj false "h-cite" none t
          | _ => otj false "h-cite" none t)
        dictSet (dictSet properties (tp.2 ++ "-of") (.arr vals)) tp.2 (.arr vals)
      else
        dictSet properties tp.2 (.arr
          ((asList (dictGet o "tags" (.arr []))).filterMap (fun t =>
            if object_type t = some tp.1 then
              some (otj false "h-cite" none t)
            else none))))
    properties
  let ret := Json.obj [("type", .arr (types.map Json.str)), ("properties", .obj properties)]
  if trimFlag then trim_nulls ret else ret

/-- microformats2.py render_content: renders the content of an AS1 object
with mention splicing, newline conversion, attachment/article previews,
an optional location card, and trailing tag anchors.  The recursive
encoding of the location object is passed as otj. -/
def render_content_bodyWith (otj : Bool -> String -> Option String -> Json -> Json)
    (obj : Json) (include_location : Bool) : String :=
  let o := asObj obj
  let content := asStr (dictGet o "content" (.str ""))
  let scan := (asList (dictGet o "tags" (.arr []))).foldl
    (fun (acc : List Json × List Json × List (Option String × List Json)) t =>
      let id := dictGet (asObj t) "id"
      if truthy id && acc.1.contains id then acc
      else
        let seen := acc.1 ++ [id]
        if hasKey (asObj t) "startIndex" && hasKey (asObj t) "length" then
          (seen, acc.2.1 ++ [t], acc.2.2)
        else (seen, acc.2.1, groupAdd acc.2.2 (object_type t) t))
    ([], [], [])
  let mentions := scan.2.1
  let groups := scan.2.2
  let content :=
    if !mentions.isEmpty then
      spliceMentions content (stableSortBy (fun a b =>
        intOfJson (dictGet (asObj a) "startIndex") <=
          intOfJson (dictGet (asObj b) "startIndex")) mentions)
    else content
  let content := pyReplace content "\n" "<br />\n"
  let ga := groupPop groups (some "article")
  let groups := ga.2
  let content := ((asList (dictGet o "attachments" (.arr []))) ++ ga.1).foldl
    (fun content tag =>
      let tkvs := asObj tag
      let name := dictGet tkvs "displayName" (.str "")
      let branch : String × Bool :=
        if dictGet tkvs "objectType" = .str "video" then
          let video := pyOr (dictGet tkvs "stream") (dictGet o "stream")
          if truthy video then
            let video := match video with | .arr xs => xs.headD .null | v => v
            let poster := dictGet tkvs "image" (.obj [])
            let poster :=
              if truthy poster then
                match poster with | .arr xs => xs.headD .null | v => v
              else poster
            if truthy (dictGet (asObj video) "url") then
              (content ++ "\n<p>" ++
                vid (dictGet (asObj video) "url") (dictGet (asObj poster) "url")
                  "thumbnail" ++ "</p>", false)
            else (content, false)
          else (content, false)
        else
          let content := content ++ "\n<p>"
          let url := pyOr (dictGet tkvs "url") (dictGet o "url")
          let co :=
            if truthy url then
              (content ++ "\n<a class=\"link\" href=\"" ++ pyFormat url ++ "\">", true)
            else (content, false)
          let image := pyOr (dictGet tkvs "image") (dictGet o "image")
          let content :=
            if truthy image then
              let image := match image with | .arr xs => xs.headD .null | v => v
              if truthy (dictGet (asObj image) "url") then
                co.1 ++ "\n" ++ img (dictGet (asObj image) "url") "thumbnail" name
              else co.1
            else co.1
          (content, co.2)
      let content := branch.1
      let content :=
        if truthy name then
          content ++ "\n<span class=\"name\">" ++ pyFormat name ++ "</span>"
        else content
      let content := if branch.2 then content ++ "\n</a>" else content
      let summary := dictGet tkvs "summary"
      let content :=
        if truthy summary && summary != name then
          content ++ "\n<span class=\"summary\">" ++ pyFormat summary ++ "</span>"
        else content
      content ++ "\n</p>")
    content
  let loc := dictGet o "location"
  let content :=
    if include_location && truthy loc then
      content ++ "\n" ++
        hcard_to_html (otj true "h-entry" (some "place") loc) ["p-location"]
    else content
  let groups := (groupPop groups (some "like")).2
  let groups := (groupPop groups (some "share")).2
  let gh := groupPop groups (some "hashtag")
  let content := content ++ tags_to_html gh.1 "p-category"
  let gm := groupPop gh.2 (some "mention")
  let content := content ++ tags_to_html gm.1 "u-mention"
  content ++ tags_to_html (gm.2.flatMap Prod.snd) "tag"

/-- Fuel-indexed pair of the mutually recursive mf2 encode and render
functions: the first component is object_to_json at the given fuel, the
second render_content. -/
def mf2convF : Nat -> ((Bool -> String -> Option String -> Json -> Json) × (Json -> Bool -> String))
  | 0 => (fun _ _ _ _ => .obj [], fun _ _ => "")
  | n + 1 =>
    (fun trimFlag ec dot obj =>
       object_to_json_bodyWith (mf2convF n).1 (mf2convF n).2 trimFlag ec dot obj,
     fun obj incl => render_content_bodyWith (mf2convF n).1 obj incl)

/-- object_to_json at an explicit fuel. -/
def object_to_jsonF (n : Nat) (trimFlag : Bool) (entry_class : String)
    (default_object_type : Option String) (obj : Json) : Json :=
  (mf2convF n).1 trimFlag entry_class default_object_type obj

/-- render_content at an explicit fuel. -/
def render_contentF (n : Nat) (obj : Json) (include_location : Bool) : String :=
  (mf2convF n).2 obj include_location

/-- object_to_json entry point with the source's default arguments. -/
def object_to_json (obj : Json) (trimFlag : Bool := true)
    (entry_class : String := "h-entry") (default_object_type : Option String := none) :
    Json :=
  object_to_jsonF (jsize obj) trimFlag entry_class default_object_type obj

/-- render_content entry point with the source's default include_location. -/
def render_content (obj : Json) (include_location : Bool := true) : String :=
  render_contentF (jsize obj) obj include_location

/-! ### microformats2.py json_to_html content-class selection

The content block of the HENTRY template receives the classes computed
below (source lines 391-437): the display-name preprocessing for RSVPs and
invites runs first, then the combined content html decides e-content and
p-name membership. -/

/-- RSVP/invite display-name preprocessing of json_to_html (microformats2.py
lines 391-401): an RSVP synthesizes a default attendance phrase when no
name is set and always wraps the first name value in a p-rsvp data element;
an invite without a name gets the name invited. -/
def props_rsvp_name (props : PyDict) : PyDict :=
  let prop := first_props (.obj props)
  let rsvp := dictGet prop "rsvp"
  if truthy rsvp then
    let props :=
      if !truthyOpt (getKV props "name") then
        dictSet props "name" (.arr
          [match [("yes", "is attending."), ("no", "is not attending."),
                  ("maybe", "might attend.")].find? (fun p => Json.str p.1 = rsvp) with
           | some p => .str p.2
           | none => .null])
      else props
    match getKV props "name" with
    | some (.arr (x :: rest)) =>
      dictSet props "name" (.arr (Json.str ("<data class=\"p-rsvp\" value=\"" ++
        pyFormat rsvp ++ "\">" ++ pyFormat x ++ "</data>") :: rest))
    | _ => props
  else if truthyOpt (getKV props "invitee") && !truthyOpt (getKV props "name") then
    dictSet props "name" (.arr [.str "invited"])
  else props

/-- Combined content html of json_to_html (microformats2.py lines 428-431):
the html (or value) member of the first content value joined with the
simplified like/repost context lines. -/
def content_html_of (prop : PyDict) (likes_and_reposts_as_content : List String) : String :=
  let content := dictGet prop "content" (.obj [])
  joinSep "\n"
    (asStr (pyOr (dictGet (asObj content) "html" (.str ""))
                 (dictGet (asObj content) "value" (.str ""))) ::
      likes_and_reposts_as_content)

/-- Content-class selection of json_to_html (microformats2.py lines
432-437): a non-empty content html gets e-content, plus p-name exactly
when no name property is set at that point. -/
def content_classes (content_html : String) (props : PyDict) : List String :=
  if content_html ≠ "" then
    "e-content" :: (if !truthyOpt (getKV props "name") then ["p-name"] else [])
  else []

/-! ### mastodon.py -/

/-- Modelled from the spec: source.creation_result builds the structured
result value of publish-style operations, carrying either success content
or a human-readable explanation plus a plain/rich-text pair of messages,
with an abort flag distinguishing stop-trying from try-another-candidate. -/
structure CreationResult where
  content : Option Json := none
  description : Option String := none
  abort : Bool := false
  error_plain : Option String := none
  error_html : Option String := none
deriving Repr, DecidableEq

/-- Outcome of Mastodon._create: either a structured CreationResult
returned before any network traffic, or the HTTP call it would issue
(the transport collaborator is out of scope; everything after a
successful POST is not modeled). -/
inductive CreateOutcome where
  | result (r : CreationResult)
  | apiCall (path : String) (body : Option Json)
deriving Repr, DecidableEq

/-- mastodon.py Mastodon._create.  The collaborators that are not part of
src/ are passed in: content0 models self._content_for_create(obj, ...)
(empty string for a falsy result), base_obj models self.base_object(obj),
trunc models self.truncate and linkify models util.linkify; domain and
instance are the instance attributes.  The preview assertion always holds
for a Bool argument. -/
def Mastodon_create (domain instanceUrl : String) (content0 : String) (base_obj : Json)
    (trunc linkify : String → String) (obj : Json) (preview : Bool) : CreateOutcome :=
  let o := asObj obj
  let type := dictGet o "objectType"
  let verb := dictGet o "verb"
  let base_id := dictGet (asObj base_obj) "id"
  let base_url := dictGet (asObj base_obj) "url"
  let is_reply := type = .str "comment" || truthy (dictGet o "inReplyTo")
  let is_rsvp := (match verb with
                  | .str v => pyStartsWith v "rsvp-"
                  | _ => false) || verb = .str "invite"
  if content0 = "" && !(type = .str "activity" && !is_rsvp) then
    .result { abort := false,
              error_plain := some "No content text found.",
              error_html := some "No content text found." }
  else
    let content := if content0 = "" then asStr verb else content0
    if is_reply && !truthy base_url then
      .result { abort := true,
                error_plain := some ("Could not find a toot on " ++ domain ++ " to reply to."),
                error_html := some ("Could not find a toot on <a href=\"" ++ instanceUrl ++
                  "\">" ++ domain ++ "</a> to <a href=\"http://indiewebcamp.com/reply\">reply to</a>. Check that your post has the right <a href=\"http://indiewebcamp.com/comment\">in-reply-to</a> link.") }
    else
      let content := trunc content
      let preview_content := linkify content
      if type = .str "activity" && verb = .str "like" then
        if !truthy base_url then
          .result { abort := true,
                    error_plain := some ("Could not find a toot on " ++ domain ++ " to favorite."),
                    error_html := some ("Could not find a toot on <a href=\"" ++ instanceUrl ++
                      "\">" ++ domain ++ "</a> to <a href=\"http://indiewebcamp.com/favorite\">favorite</a>. Check that your post has the right <a href=\"http://indiewebcamp.com/like\">u-like-of link</a>.") }
        else if preview then
          .result { description := some ("<span class=\"verb\">favorite</span> <a href=\"" ++
            pyFormat base_url ++ "\">this toot</a>.") }
        else
          .apiCall ("/api/v1/statuses/" ++ pyFormat base_id ++ "/favourite") none
      else if type = .str "activity" && verb = .str "share" then
        if !truthy base_url then
          .result { abort := true,
                    error_plain := some "Could not find a toot to boost.",
                    error_html := some ("Could not find a toot on <a href=\"" ++ instanceUrl ++
                      "\">" ++ domain ++ "</a> to <a href=\"http://indiewebcamp.com/repost\">boost</a>. Check that your post has the right <a href=\"http://indiewebcamp.com/repost\">repost-of</a> link.") }
        else if preview then
          .result { description := some ("<span class=\"verb\">boost</span> <a href=\"" ++
            pyFormat base_url ++ "\">this toot</a>.") }
        else
          .apiCall ("/api/v1/statuses/" ++ pyFormat base_id ++ "/reblog") none
      else if type = .str "note" || type = .str "article" || is_reply || is_rsvp then
        let pd :=
          if is_reply then
            "<span class=\"verb\">reply</span> to <a href=\"" ++ pyFormat base_url ++
              "\">this toot</a>:"
          else "<span class=\"verb\">toot</span>:"
        let data := Json.obj ([("status", .str content)] ++
          (if is_reply then [("in_reply_to_id", base_id)] else []))
        if preview then
          .result { content := some (.str preview_content), description := some pd }
        else
          .apiCall "/api/v1/statuses" (some data)
      else
        .result { abort := false,
                  error_plain := some ("Cannot publish type=" ++ pyFormat type ++
                    ", verb=" ++ pyFormat verb ++ " to Mastodon"),
                  error_html := some ("Cannot publish type=" ++ pyFormat type ++
                    ", verb=" ++ pyFormat verb ++ " to Mastodon") }

/-! ## Lemmas about the dict model -/

theorem hasKey_iff (d : PyDict) (k : String) : hasKey d k = true ↔ k ∈ keys d := by
  induction d with
  | nil => simp [hasKey, keys]
  | cons kv rest ih =>
    simp only [hasKey, List.any_cons, Bool.or_eq_true, decide_eq_true_eq, keys,
      List.map_cons, List.mem_cons] at *
    constructor
    · rintro (h | h)
      · exact Or.inl h.symm
      · exact Or.inr (ih.mp h)
    · rintro (h | h)
      · exact Or.inl h.symm
      · exact Or.inr (ih.mpr h)

theorem getKV_eq_none_of_not_mem {d : PyDict} {k : String} (h : k ∉ keys d) :
    getKV d k = none := by
  induction d with
  | nil => rfl
  | cons kv rest ih =>
    simp only [keys, List.map_cons, List.mem_cons, not_or] at h
    have h1 : kv.1 ≠ k := fun hh => h.1 hh.symm
    simp [getKV, h1, ih (by simpa [keys] using h.2)]

theorem mem_keys_of_getKV {d : PyDict} {k : String} {v : Json}
    (h : getKV d k = some v) : k ∈ keys d := by
  by_contra hn
  rw [getKV_eq_none_of_not_mem hn] at h
  exact Option.noConfusion h

theorem getKV_dictSet_self (d : PyDict) (k : String) (v : Json) :
    getKV (dictSet d k v) k = some v := by
  induction d with
  | nil => simp [dictSet, getKV]
  | cons kv rest ih =>
    by_cases h : kv.1 = k <;> simp [dictSet, getKV, h, ih]

theorem getKV_dictSet_other (d : PyDict) (k k' : String) (v : Json) (h : k ≠ k') :
    getKV (dictSet d k v) k' = getKV d k' := by
  induction d with
  | nil => simp [dictSet, getKV, h]
  | cons kv rest ih =>
    obtain ⟨k₀, v₀⟩ := kv
    by_cases hk : k₀ = k
    · subst hk
      simp [dictSet, getKV, h, Ne.symm h]
    · by_cases hk' : k₀ = k' <;> simp [dictSet, getKV, hk, hk', Ne.symm h, ih]

theorem dictSet_dictSet (d : PyDict) (k : String) (v v' : Json) :
    dictSet (dictSet d k v) k v' = dictSet d k v' := by
  induction d with
  | nil => simp [dictSet]
  | cons kv rest ih =>
    by_cases h : kv.1 = k <;> simp [dictSet, h, ih]

theorem keys_dictSet (d : PyDict) (k : String) (v : Json) :
    keys (dictSet d k v) = if k ∈ keys d then keys d else keys d ++ [k] := by
  induction d with
  | nil => simp [dictSet, keys]
  | cons kv rest ih =>
    obtain ⟨k₀, v₀⟩ := kv
    by_cases h : k₀ = k
    · subst h; simp [dictSet, keys]
    · have ih' : List.map Prod.fst (dictSet rest k v) =
          if k ∈ List.map Prod.fst rest then List.map Prod.fst rest
          else List.map Prod.fst rest ++ [k] := by simpa [keys] using ih
      by_cases hm : k ∈ List.map Prod.fst rest <;>
        simp [dictSet, keys, h, ih', hm, List.mem_cons, Ne.symm h]

theorem getKV_trimKvs_none {kvs : PyDict} {k : String} (h : k ∉ keys kvs) :
    getKV (trimKvs kvs) k = none := by
  induction kvs with
  | nil => rfl
  | cons kv rest ih =>
    obtain ⟨k₀, v⟩ := kv
    simp only [keys, List.map_cons, List.mem_cons, not_or] at h
    have h1 : k₀ ≠ k := fun hh => h.1 hh.symm
    by_cases hn : isNullVal (trim_nulls v) <;>
      simp [trimKvs, hn, getKV, h1, ih (by simpa [keys] using h.2)]

theorem getKV_trimKvs (kvs : PyDict) (k : String) (hnd : (keys kvs).Nodup) :
    getKV (trimKvs kvs) k =
      (getKV kvs k).bind (fun v =>
        if isNullVal (trim_nulls v) then none else some (trim_nulls v)) := by
  induction kvs with
  | nil => rfl
  | cons kv rest ih =>
    obtain ⟨k', v⟩ := kv
    simp [keys, List.nodup_cons] at hnd
    by_cases hk : k' = k
    · subst hk
      by_cases hn : isNullVal (trim_nulls v)
      · simp [trimKvs, hn, getKV, getKV_trimKvs_none (by simpa [keys] using hnd.1)]
      · simp [trimKvs, hn, getKV]
    · by_cases hn : isNullVal (trim_nulls v) <;>
        simp [trimKvs, hn, getKV, hk, ih (by simpa [keys] using hnd.2)]

theorem trim_nulls_obj (kvs : PyDict) : trim_nulls (.obj kvs) = .obj (trimKvs kvs) := by
  simp [trim_nulls]

/-- Lookup in a trimmed dict object, combining the two lemmas above. -/
theorem getKV_trim_obj (kvs : PyDict) (k : String) (hnd : (keys kvs).Nodup) :
    getKV (asObj (trim_nulls (.obj kvs))) k =
      (getKV kvs k).bind (fun v =>
        if isNullVal (trim_nulls v) then none else some (trim_nulls v)) := by
  rw [trim_nulls_obj]
  exact getKV_trimKvs kvs k hnd

theorem keySetEq_iff (ks target : List String) :
    keySetEq ks target = true ↔ ((∀ k ∈ ks, k ∈ target) ∧ ∀ k ∈ target, k ∈ ks) := by
  simp [keySetEq, List.all_eq_true]

theorem dedupKeepFirst_sublist : ∀ xs : List Json, (dedupKeepFirst xs).Sublist xs := by
  intro xs
  induction xs using dedupKeepFirst.induct with
  | case1 => simp [dedupKeepFirst]
  | case2 x xs ih =>
    rw [dedupKeepFirst]
    exact List.Sublist.cons₂ x (ih.trans (List.filter_sublist xs))

theorem mem_dedupKeepFirst : ∀ xs : List Json, ∀ y, y ∈ dedupKeepFirst xs ↔ y ∈ xs := by
  intro xs
  induction xs using dedupKeepFirst.induct with
  | case1 => simp [dedupKeepFirst]
  | case2 x xs ih =>
    intro y
    rw [dedupKeepFirst]
    by_cases hy : y = x
    · simp [hy]
    · rw [List.mem_cons]
      simp only [hy, false_or]
      rw [ih y, List.mem_filter]
      simp [hy]

theorem dedupKeepFirst_nodup : ∀ xs : List Json, (dedupKeepFirst xs).Nodup := by
  intro xs
  induction xs using dedupKeepFirst.induct with
  | case1 => simp [dedupKeepFirst]
  | case2 x xs ih =>
    rw [dedupKeepFirst]
    refine List.nodup_cons.mpr ⟨?_, ih⟩
    intro hc
    have := (mem_dedupKeepFirst _ x).mp hc
    simp [List.mem_filter] at this

theorem dedup_foldl_eq : ∀ (xs acc : List Json),
    xs.foldl (fun os t => if os.contains t then os else os ++ [t]) acc =
      acc ++ dedupKeepFirst (xs.filter (fun y => !acc.contains y)) := by
  intro xs
  induction xs with
  | nil => intro acc; simp [dedupKeepFirst]
  | cons x rest ih =>
    intro acc
    simp only [List.foldl_cons]
    by_cases hx : acc.contains x
    · rw [if_pos hx, ih acc]
      have hx' : x ∈ acc := by simpa using hx
      simp [List.filter_cons, hx']
    · rw [if_neg hx, ih (acc ++ [x])]
      have hpred : ∀ y ∈ rest, (!(acc ++ [x]).contains y) = ((y ≠ x) && (!acc.contains y)) := by
        intro y _
        by_cases h1 : y ∈ acc <;> by_cases h2 : y = x <;> simp [h1, h2]
      rw [List.filter_congr hpred]
      simp only [List.filter_cons, hx, Bool.not_false, if_true]
      rw [dedupKeepFirst]
      simp only [List.append_assoc, List.singleton_append]
      congr 2
      rw [← List.filter_filter]

theorem foldl_dedup_map (g : Json → Json) : ∀ (xs acc : List Json),
    xs.foldl (fun os t =>
      let u := g t
      if os.contains u then os else os ++ [u]) acc =
      (xs.map g).foldl (fun os t => if os.contains t then os else os ++ [t]) acc := by
  intro xs
  induction xs with
  | nil => intro acc; rfl
  | cons x rest ih =>
    intro acc
    simp only [List.foldl_cons, List.map_cons]
    exact ih _

theorem collect_objectsWith_eq (f : Json → Json) (props : PyDict) :
    collect_objectsWith f props =
      dedupKeepFirst ((TARGET_FIELDS.flatMap
        (fun field => asList (dictGet props field (Json.arr [])))).map
        (convTargetWith f)) := by
  unfold collect_objectsWith
  rw [foldl_dedup_map]
  rw [dedup_foldl_eq]
  simp

theorem trim_nulls_str (s : String) : trim_nulls (Json.str s) = Json.str s := rfl

theorem resolve_type_fst_ne (types : List Json) (props : PyDict) (rv : Option String) :
    (resolve_type types props rv).1 ≠ "" := by
  unfold resolve_type
  cases h1 : (types_map rv).find? (fun e => types.contains (Json.str e.1)) with
  | some e =>
    have hm := List.mem_of_find?_eq_some h1
    simp only [types_map, List.mem_cons, List.not_mem_nil, or_false] at hm
    rcases hm with rfl | rfl | rfl | rfl | rfl | rfl | rfl <;> simp
  | none =>
    cases h2 : (prop_types_map rv).find? (fun e => hasKey props e.1) with
    | some e =>
      have hm := List.mem_of_find?_eq_some h2
      simp only [prop_types_map, List.mem_cons, List.not_mem_nil, or_false] at hm
      rcases hm with rfl | rfl | rfl | rfl | rfl <;> simp
    | none =>
      simp only []
      split <;> decide

theorem json_to_object_body_keys_nodup (rec_ : Json → Json) (m : PyDict) :
    (keys (json_to_object_bodyWith rec_ m)).Nodup := by
  simp only [json_to_object_bodyWith]
  split <;> split <;> simp [dictUpdate, dictSet, keys]

/-- The objectType, verb, and (for activities) object entries of the
pre-trim json_to_object result dict. -/
theorem json_to_object_body_get (n : Nat) (kvs props : PyDict) (types : List Json)
    (rv : Option String)
    (hprops : getKV kvs "properties" = some (Json.obj props))
    (htypes : getKV kvs "type" = some (Json.arr types))
    (hrv : rv = (if truthy (dictGet (first_props (Json.obj props)) "rsvp") then
      some ("rsvp-" ++ pyFormat (dictGet (first_props (Json.obj props)) "rsvp")) else none)) :
    getKV (json_to_object_bodyWith (json_to_objectF n) kvs) "objectType" =
      some (Json.str (resolve_type types props rv).1) ∧
    getKV (json_to_object_bodyWith (json_to_objectF n) kvs) "verb" =
      some (match (resolve_type types props rv).2 with
            | some s => Json.str s
            | none => Json.null) ∧
    ((resolve_type types props rv).1 = "activity" →
      getKV (json_to_object_bodyWith (json_to_objectF n) kvs) "object" =
        some (match collect_objectsWith (json_to_objectF n) props with
              | [x] => x
              | xs => Json.arr xs)) := by
  subst hrv
  have hAL : asList (Json.arr types) = types := rfl
  simp only [json_to_object_bodyWith, dictGet, hprops, htypes, asObj, Option.getD_some, hAL]
  by_cases hact : (resolve_type types props
      (if truthy ((getKV (first_props (Json.obj props)) "rsvp").getD Json.null) = true then
        some ("rsvp-" ++ pyFormat ((getKV (first_props (Json.obj props)) "rsvp").getD Json.null))
      else none)).1 = "activity" <;>
    simp [hact, dictUpdate, dictSet, getKV, dictGet]

/-! ## Claim theorems -/

/-- C1: for every event that carries exactly the five fields content,
created_at, kind, pubkey, tags, the event canonicalizer id_for returns the
hex-encoded SHA-256 digest of the JSON serialization of the six-element
array [0, pubkey, created_at, kind, tags, content]; and for every event
carrying any additional field (a stale id included) the call is a
precondition violation — the assertion fails, modeled as a none result. -/
theorem C1_id_for_canonical_hash (event : PyDict) :
    ((∀ k, k ∈ keys event ↔ k ∈ NOSTR_EVENT_FIELDS) →
      (id_for event).1 = some (sha256hex (json_dumps (Json.arr
        [Json.num 0, dictGet event "pubkey", dictGet event "created_at",
         dictGet event "kind", dictGet event "tags", dictGet event "content"])))) ∧
    ((∃ k ∈ keys event, k ∉ NOSTR_EVENT_FIELDS) →
      (id_for event).1 = none) := by
  constructor
  · intro h
    have htags : hasKey event "tags" = true :=
      (hasKey_iff event "tags").mpr ((h "tags").mpr (by decide))
    have hsd : setdefault event "tags" (Json.arr []) = event := by
      simp [setdefault, htags]
    have hks : keySetEq (keys event) NOSTR_EVENT_FIELDS = true :=
      (keySetEq_iff _ _).mpr ⟨fun k hk => (h k).mp hk, fun k hk => (h k).mpr hk⟩
    simp [id_for, hsd, hks]
  · rintro ⟨k, hk, hk5⟩
    have hmem : k ∈ keys (setdefault event "tags" (Json.arr [])) := by
      by_cases h : hasKey event "tags" = true <;> simp [setdefault, h, keys] at *
      · exact hk
      · simpa [keys] using Or.inl hk
    have hks : keySetEq (keys (setdefault event "tags" (Json.arr [])))
        NOSTR_EVENT_FIELDS = false := by
      rw [← Bool.not_eq_true]
      intro hc
      exact hk5 (((keySetEq_iff _ _).mp hc).1 k hmem)
    simp [id_for, hks]

/-- Witness for C1 at a concrete five-field event (and a six-field event
carrying a stale id for the violation half). -/
theorem C1_id_for_canonical_hash_witness :
    (id_for [("content", Json.str "hi"), ("created_at", Json.num 1),
             ("kind", Json.num 1), ("pubkey", Json.str "ab"),
             ("tags", Json.arr [])]).1 =
      some (sha256hex (json_dumps (Json.arr
        [Json.num 0, Json.str "ab", Json.num 1, Json.num 1,
         Json.arr [], Json.str "hi"]))) ∧
    (id_for [("id", Json.str "stale"), ("content", Json.str "hi"),
             ("created_at", Json.num 1), ("kind", Json.num 1),
             ("pubkey", Json.str "ab"), ("tags", Json.arr [])]).1 = none := by
  constructor
  · exact (C1_id_for_canonical_hash _).1
      (by intro k; simp [keys, NOSTR_EVENT_FIELDS])
  · exact (C1_id_for_canonical_hash _).2 ⟨"id", by simp [keys], by decide⟩

/-- C10: for every event carrying exactly the four fields content,
created_at, kind, pubkey (no tags key), id_for does not raise: it first
inserts tags = [] into the event (mutating its argument, modeled by the
returned post-call dict) and then returns the same hash as for the event
with an explicit empty tag list; the five-field assertion rejects only
extra fields, not a missing tags field. -/
theorem C10_id_for_missing_tags (event : PyDict)
    (h : ∀ k, k ∈ keys event ↔ k ∈ ["content", "created_at", "kind", "pubkey"]) :
    (id_for event).2 = event ++ [("tags", Json.arr [])] ∧
    (id_for event).1 = (id_for (event ++ [("tags", Json.arr [])])).1 ∧
    (id_for event).1.isSome = true := by
  have htags : hasKey event "tags" = false := by
    rw [← Bool.not_eq_true]
    intro hc
    have := (h "tags").mp ((hasKey_iff event "tags").mp hc)
    simp at this
  have hsd : setdefault event "tags" (Json.arr []) = event ++ [("tags", Json.arr [])] := by
    simp [setdefault, htags]
  have hkeys : keys (event ++ [("tags", Json.arr [])]) = keys event ++ ["tags"] := by
    simp [keys]
  have hks : keySetEq (keys event ++ ["tags"]) NOSTR_EVENT_FIELDS = true := by
    refine (keySetEq_iff _ _).mpr ⟨?_, ?_⟩
    · intro k hk
      rcases List.mem_append.mp hk with hk | hk
      · have hx := (h k).mp hk
        simp [NOSTR_EVENT_FIELDS] at hx ⊢
        tauto
      · simp at hk
        simp [hk, NOSTR_EVENT_FIELDS]
    · intro k hk
      by_cases hkt : k = "tags"
      · simp [hkt]
      · refine List.mem_append.mpr (Or.inl ((h k).mpr ?_))
        simp [NOSTR_EVENT_FIELDS] at hk
        simp
        tauto
  have htags2 : hasKey (event ++ [("tags", Json.arr [])]) "tags" = true :=
    (hasKey_iff _ _).mpr (by simp [keys])
  have hsd2 : setdefault (event ++ [("tags", Json.arr [])]) "tags" (Json.arr []) =
      event ++ [("tags", Json.arr [])] := by
    simp [setdefault, htags2]
  refine ⟨?_, ?_, ?_⟩ <;> simp [id_for, hsd, hsd2, hkeys, hks]

/-- Witness for C10 at a concrete four-field event. -/
theorem C10_id_for_missing_tags_witness :
    (id_for [("content", Json.str "hi"), ("created_at", Json.num 1),
             ("kind", Json.num 1), ("pubkey", Json.str "ab")]).2 =
      [("content", Json.str "hi"), ("created_at", Json.num 1),
       ("kind", Json.num 1), ("pubkey", Json.str "ab"), ("tags", Json.arr [])] ∧
    (id_for [("content", Json.str "hi"), ("created_at", Json.num 1),
             ("kind", Json.num 1), ("pubkey", Json.str "ab")]).1 =
      (id_for [("content", Json.str "hi"), ("created_at", Json.num 1),
               ("kind", Json.num 1), ("pubkey", Json.str "ab"),
               ("tags", Json.arr [])]).1 := by
  have := C10_id_for_missing_tags
    [("content", Json.str "hi"), ("created_at", Json.num 1),
     ("kind", Json.num 1), ("pubkey", Json.str "ab")]
    (by intro k; simp [keys])
  exact ⟨this.1, this.2.1⟩

/-- C7 counterexample: the claim says every conversion function leaves its
argument unchanged, but id_for mutates a four-field event by inserting
tags = [] (the post-call argument differs from the input). -/
theorem C7_purity_counterexample :
    (id_for [("content", Json.str "hi"), ("created_at", Json.num 1),
             ("kind", Json.num 1), ("pubkey", Json.str "ab")]).2 ≠
      [("content", Json.str "hi"), ("created_at", Json.num 1),
       ("kind", Json.num 1), ("pubkey", Json.str "ab")] := by decide

/-- C7 amended: the blanket purity claim fails: id_for mutates its event
argument, through event.setdefault, exactly when the tags key is absent,
appending tags = []; an event already carrying tags is returned
unchanged, and in every case the post-call argument is exactly
setdefault event tags []. -/
theorem C7_amended_id_for_state (e : PyDict) :
    (id_for e).2 = setdefault e "tags" (Json.arr []) ∧
    (hasKey e "tags" = true → (id_for e).2 = e) ∧
    (hasKey e "tags" = false → (id_for e).2 = e ++ [("tags", Json.arr [])]) := by
  have hstate : (id_for e).2 = setdefault e "tags" (Json.arr []) := by
    by_cases h : keySetEq (keys (setdefault e "tags" (Json.arr []))) NOSTR_EVENT_FIELDS <;>
      simp [id_for, h]
  refine ⟨hstate, ?_, ?_⟩
  · intro h
    rw [hstate]
    simp [setdefault, h]
  · intro h
    rw [hstate]
    simp [setdefault, h]

/-- Witness for C7 amended at a concrete five-field event. -/
theorem C7_amended_id_for_state_witness :
    (id_for [("content", Json.str "x"), ("created_at", Json.num 5),
             ("kind", Json.num 1), ("pubkey", Json.str "ab"),
             ("tags", Json.arr [])]).2 =
      [("content", Json.str "x"), ("created_at", Json.num 5),
       ("kind", Json.num 1), ("pubkey", Json.str "ab"), ("tags", Json.arr [])] :=
  (C7_amended_id_for_state _).2.1 (by decide)

/-- C5 (code-bug evidence): the reply-author back-reference of the event
encoder references orig_event, a variable never assigned in the
note/article branch, so a note reply whose target carries an author id
raises UnboundLocalError instead of appending the author-pubkey p tag; a
reply target without an author id still gets its reply-edge e tag and no
p tag. -/
theorem C5_reply_author_unbound_local :
    from_as1 (Json.obj [("objectType", Json.str "note"), ("content", Json.str "hi"),
      ("inReplyTo", Json.arr [Json.obj [("id", Json.str "abc"),
        ("author", Json.obj [("id", Json.str "def")])]])]) =
      Except.error (PyErr.unboundLocal "orig_event") ∧
    from_as1 (Json.obj [("objectType", Json.str "note"), ("content", Json.str "hi"),
      ("inReplyTo", Json.arr [Json.obj [("id", Json.str "abc")]])]) =
      Except.ok (Json.obj [("tags", Json.arr [Json.arr [Json.str "e", Json.str "abc",
        Json.str "TODO relay", Json.str "reply"]]), ("kind", Json.num 1),
        ("content", Json.str "hi")]) := by decide

theorem isNullVal_str (s : String) : isNullVal (Json.str s) = decide (s = "") := by
  by_cases h : s = "" <;> simp [h, isNullVal]

/-- C6: for content "hello world" and the single mention tag startIndex 6,
length 5, url https://x, render_content returns hello followed by the
anchor-wrapped world; for any object with string content and zero tags,
no attachments and no location, render_content returns the content
unchanged except that each newline becomes a line break; and the newline
conversion is applied only after offset splicing, witnessed by a span that
sits after a newline and is spliced at its original indices. -/
theorem C6_render_content_splicing (obj : PyDict) (c : String)
    (hcontent : getKV obj "content" = some (Json.str c))
    (htags : asList (dictGet obj "tags" (Json.arr [])) = [])
    (hatt : asList (dictGet obj "attachments" (Json.arr [])) = [])
    (hloc : truthy (dictGet obj "location") = false) :
    render_content (Json.obj obj) = pyReplace c "\n" "<br />\n" ∧
    render_content (Json.obj [("content", Json.str "hello world"),
      ("tags", Json.arr [Json.obj [("startIndex", Json.num 6), ("length", Json.num 5),
        ("url", Json.str "https://x")]])]) =
      "hello <a href=\"https://x\">world</a>" ∧
    render_content (Json.obj [("content", Json.str "a\nbcd"),
      ("tags", Json.arr [Json.obj [("startIndex", Json.num 2), ("length", Json.num 3),
        ("url", Json.str "u")]])]) =
      "a<br />\n<a href=\"u\">bcd</a>" := by
  refine ⟨?_, by decide, by decide⟩
  rw [render_content]
  have hj : jsize (Json.obj obj) = jsizeKvs obj + 1 := by simp [jsize, Nat.add_comm]
  rw [hj]
  simp only [render_contentF, mf2convF, render_content_bodyWith, asObj]
  simp only [htags, hatt, hloc, List.foldl_nil, List.append_nil, List.nil_append,
    Bool.false_eq_true, if_false, List.isEmpty_nil, Bool.not_true, Bool.and_false,
    Bool.false_and, groupPop, tags_to_html, List.filterMap_nil, String.join,
    List.flatMap_nil, List.foldl_nil]
  simp [dictGet, hcontent, asStr]

/-- Witness for C6 at a concrete two-line note. -/
theorem C6_render_content_splicing_witness :
    render_content (Json.obj [("content", Json.str "l1\nl2")]) =
      pyReplace "l1\nl2" "\n" "<br />\n" :=
  (C6_render_content_splicing [("content", Json.str "l1\nl2")] "l1\nl2"
    (by decide) (by decide) (by decide) (by decide)).1

/-- C8 counterexample: the claim promises abort=True for every reply whose
target toot cannot be located, but a contentless reply hits the no-content
check first and returns the non-abort result. -/
theorem C8_create_counterexample :
    Mastodon_create "d" "https://i" "" (Json.obj []) (fun s => s) (fun s => s)
      (Json.obj [("objectType", Json.str "comment")]) false =
      .result { abort := false, error_plain := some "No content text found.",
                error_html := some "No content text found." } := by decide

/-- C8 amended: expected domain conditions return a structured
CreationResult rather than raising: a like or share whose target toot
cannot be located, and a reply carrying content text whose target cannot
be located, yield abort=true with both a plain-text and an HTML message;
an object with no content text (outside the verb-as-content activity
path), and an unsupported objectType/verb combination, yield abort=false
with a descriptive message.  The collaborators not under src/ are modeled
as the content0/base_obj/trunc/linkify parameters. -/
theorem C8_amended_create_results (domain instanceUrl content0 : String)
    (base_obj obj : Json) (trunc linkify : String → String) (preview : Bool) :
    ((dictGet (asObj obj) "objectType" = Json.str "activity" ∧
      (dictGet (asObj obj) "verb" = Json.str "like" ∨
       dictGet (asObj obj) "verb" = Json.str "share") ∧
      truthy (dictGet (asObj base_obj) "url") = false) →
      ∃ res, Mastodon_create domain instanceUrl content0 base_obj trunc linkify obj preview =
          .result res ∧
        res.abort = true ∧ res.error_plain.isSome ∧ res.error_html.isSome) ∧
    (((dictGet (asObj obj) "objectType" = Json.str "comment" ∨
       truthy (dictGet (asObj obj) "inReplyTo") = true) ∧ content0 ≠ "" ∧
      truthy (dictGet (asObj base_obj) "url") = false) →
      ∃ res, Mastodon_create domain instanceUrl content0 base_obj trunc linkify obj preview =
          .result res ∧
        res.abort = true ∧ res.error_plain.isSome ∧ res.error_html.isSome) ∧
    ((content0 = "" ∧
      ¬(dictGet (asObj obj) "objectType" = Json.str "activity" ∧
        ((match dictGet (asObj obj) "verb" with
          | Json.str v => pyStartsWith v "rsvp-"
          | _ => false) || dictGet (asObj obj) "verb" = Json.str "invite") = false)) →
      Mastodon_create domain instanceUrl content0 base_obj trunc linkify obj preview =
        .result { abort := false, error_plain := some "No content text found.",
                  error_html := some "No content text found." }) ∧
    ((content0 ≠ "" ∧
      dictGet (asObj obj) "objectType" ≠ Json.str "comment" ∧
      truthy (dictGet (asObj obj) "inReplyTo") = false ∧
      ((match dictGet (asObj obj) "verb" with
        | Json.str v => pyStartsWith v "rsvp-"
        | _ => false) || dictGet (asObj obj) "verb" = Json.str "invite") = false ∧
      dictGet (asObj obj) "objectType" ≠ Json.str "note" ∧
      dictGet (asObj obj) "objectType" ≠ Json.str "article" ∧
      ¬(dictGet (asObj obj) "objectType" = Json.str "activity" ∧
        (dictGet (asObj obj) "verb" = Json.str "like" ∨
         dictGet (asObj obj) "verb" = Json.str "share"))) →
      ∃ res, Mastodon_create domain instanceUrl content0 base_obj trunc linkify obj preview =
          .result res ∧
        res.abort = false ∧ res.error_plain.isSome ∧ res.error_html.isSome) := by
  refine ⟨?_, ?_, ?_, ?_⟩
  · rintro ⟨htype, hverb, hurl⟩
    have hps1 : pyStartsWith "like" "rsvp-" = false := by decide
    have hps2 : pyStartsWith "share" "rsvp-" = false := by decide
    rcases hverb with hverb | hverb <;>
    · have hrsvp : ((match dictGet (asObj obj) "verb" with
          | Json.str v => pyStartsWith v "rsvp-"
          | _ => false) || dictGet (asObj obj) "verb" = Json.str "invite") = false := by
        rw [hverb]; decide
      simp only [Mastodon_create, htype, hverb, hurl, hrsvp]
      simp [hurl, hps1, hps2]
      all_goals first
      | exact ⟨_, rfl, rfl, rfl, rfl⟩
      | split <;> exact ⟨_, rfl, rfl, rfl, rfl⟩
  · rintro ⟨hreply, hcont, hurl⟩
    simp only [Mastodon_create]
    rcases hreply with h | h <;> simp [h, hcont, hurl] <;>
    all_goals first
    | exact ⟨_, rfl, rfl, rfl, rfl⟩
    | split <;> exact ⟨_, rfl, rfl, rfl, rfl⟩
  · rintro ⟨hcont, hact⟩
    subst hcont
    by_cases hA : dictGet (asObj obj) "objectType" = Json.str "activity"
    · by_cases hR : ((match dictGet (asObj obj) "verb" with
          | Json.str v => pyStartsWith v "rsvp-"
          | _ => false) || dictGet (asObj obj) "verb" = Json.str "invite") = false
      · exact absurd ⟨hA, hR⟩ hact
      · simp only [Bool.not_eq_false] at hR
        simp [Mastodon_create, hA, hR]
    · simp [Mastodon_create, hA]
  · rintro ⟨hcont, hnc, hnr, hrsvp, hnote, hart, hls⟩
    by_cases hA : dictGet (asObj obj) "objectType" = Json.str "activity"
    · have hlike : dictGet (asObj obj) "verb" ≠ Json.str "like" :=
        fun h => hls ⟨hA, Or.inl h⟩
      have hshare : dictGet (asObj obj) "verb" ≠ Json.str "share" :=
        fun h => hls ⟨hA, Or.inr h⟩
      simp only [Mastodon_create, hA]
      simp [hlike, hshare, hnote, hart, hcont, hrsvp, hnr, hnc]
      all_goals first
      | exact ⟨_, rfl, rfl, rfl, rfl⟩
      | split <;> exact ⟨_, rfl, rfl, rfl, rfl⟩
    · simp only [Mastodon_create]
      simp [hA, hnote, hart, hcont, hrsvp, hnr, hnc]
      all_goals first
      | exact ⟨_, rfl, rfl, rfl, rfl⟩
      | split <;> exact ⟨_, rfl, rfl, rfl, rfl⟩

/-- Witness for C8 amended at a like with no locatable target, a
contentful reply with no locatable target, and a person object. -/
theorem C8_amended_create_results_witness :
    (∃ res, Mastodon_create "d" "https://i" "" (Json.obj []) (fun s => s) (fun s => s)
        (Json.obj [("objectType", Json.str "activity"), ("verb", Json.str "like")]) false =
        .result res ∧
      res.abort = true ∧ res.error_plain.isSome ∧ res.error_html.isSome) ∧
    (∃ res, Mastodon_create "d" "https://i" "hello" (Json.obj []) (fun s => s) (fun s => s)
        (Json.obj [("objectType", Json.str "comment")]) false =
        .result res ∧
      res.abort = true ∧ res.error_plain.isSome ∧ res.error_html.isSome) ∧
    (∃ res, Mastodon_create "d" "https://i" "bio" (Json.obj []) (fun s => s) (fun s => s)
        (Json.obj [("objectType", Json.str "person")]) false =
        .result res ∧
      res.abort = false ∧ res.error_plain.isSome ∧ res.error_html.isSome) := by
  refine ⟨?_, ?_, ?_⟩
  · exact (C8_amended_create_results "d" "https://i" "" (Json.obj []) _ (fun s => s)
      (fun s => s) false).1 ⟨by decide, Or.inl (by decide), by decide⟩
  · exact (C8_amended_create_results "d" "https://i" "hello" (Json.obj []) _ (fun s => s)
      (fun s => s) false).2.1 ⟨Or.inl (by decide), by decide, by decide⟩
  · exact (C8_amended_create_results "d" "https://i" "bio" (Json.obj []) _ (fun s => s)
      (fun s => s) false).2.2.2
      ⟨by decide, by decide, by decide, by decide, by decide, by decide, by decide⟩

theorem props_rsvp_name_truthy (props : PyDict)
    (h : truthy (dictGet (first_props (Json.obj props)) "rsvp") = true) :
    truthyOpt (getKV (props_rsvp_name props) "name") = true := by
  unfold props_rsvp_name
  rw [if_pos h]
  by_cases hn : truthyOpt (getKV props "name") = true
  · simp only [hn, Bool.not_true, Bool.false_eq_true, if_false]
    cases hv : getKV props "name" with
    | none => simp [truthyOpt, hv] at hn
    | some v =>
      cases v with
      | arr xs =>
        cases xs with
        | nil => simp [truthyOpt, hv, truthy] at hn
        | cons x rest =>
          simp [hv, getKV_dictSet_self, truthyOpt, truthy]
      | null => simp [truthyOpt, hv, truthy] at hn
      | bool b =>
        simp [hv, truthyOpt]
        simpa [truthyOpt, hv] using hn
      | num n => simp [hv, truthyOpt]; simpa [truthyOpt, hv] using hn
      | str s => simp [hv, truthyOpt]; simpa [truthyOpt, hv] using hn
      | obj kvs => simp [hv, truthyOpt]; simpa [truthyOpt, hv] using hn
  · simp only [Bool.not_eq_true] at hn
    simp only [hn, Bool.not_false, if_true]
    rw [getKV_dictSet_self]
    simp [getKV_dictSet_self, dictSet_dictSet, truthyOpt, truthy]

/-- C9: in json_to_html's content block, a non-empty combined content html
carries the e-content class, and additionally carries p-name exactly when
no name property is set at that point; after the RSVP display-name
preprocessing (which always sets a name) the content block of an RSVP
never carries p-name. -/
theorem C9_content_class_selection (props : PyDict) (ch : String) :
    ("e-content" ∈ content_classes ch props ↔ ch ≠ "") ∧
    (ch ≠ "" →
      ("p-name" ∈ content_classes ch props ↔ truthyOpt (getKV props "name") = false)) ∧
    (truthy (dictGet (first_props (Json.obj props)) "rsvp") = true →
      "p-name" ∉ content_classes ch (props_rsvp_name props)) := by
  refine ⟨?_, ?_, ?_⟩
  · by_cases hch : ch = "" <;> simp [content_classes, hch]
  · intro hch
    by_cases hn : truthyOpt (getKV props "name") = true <;>
      simp [content_classes, hch, hn]
  · intro h
    have := props_rsvp_name_truthy props h
    by_cases hch : ch = "" <;> simp [content_classes, hch, this]

/-- Witness for C9 at a concrete RSVP property map with content html. -/
theorem C9_content_class_selection_witness :
    ("e-content" ∈ content_classes "<p>x</p>" [("rsvp", Json.arr [Json.str "yes"])] ↔
      ("<p>x</p>" : String) ≠ "") ∧
    "p-name" ∉ content_classes "<p>x</p>"
      (props_rsvp_name [("rsvp", Json.arr [Json.str "yes"])]) :=
  ⟨(C9_content_class_selection [("rsvp", Json.arr [Json.str "yes"])] "<p>x</p>").1,
   (C9_content_class_selection [("rsvp", Json.arr [Json.str "yes"])] "<p>x</p>").2.2
     (by decide)⟩

/-- C2: json_to_object resolves objectType and verb by the two-tier
first-match-wins priority of resolve_type: the ordered mf2-type table
(types_map) is consulted first, then the ordered property-presence table
(prop_types_map), then the note/article default keyed on the h-as-note
token; the decoded objectType is exactly the first component of
resolve_type (never dropped by trimming, since it is never empty) and the
decoded verb is its second component (dropped only when empty).  In
particular an item carrying both an explicit h-as-rsvp type token and a
repost-of property decodes to the RSVP interpretation. -/
theorem C2_type_resolution (n : Nat) (kvs props : PyDict) (types : List Json)
    (rv : Option String)
    (hprops : getKV kvs "properties" = some (Json.obj props))
    (htypes : getKV kvs "type" = some (Json.arr types))
    (hrv : rv = (if truthy (dictGet (first_props (Json.obj props)) "rsvp") then
      some ("rsvp-" ++ pyFormat (dictGet (first_props (Json.obj props)) "rsvp")) else none)) :
    getKV (asObj (json_to_objectF (n + 1) (Json.obj kvs))) "objectType" =
      some (Json.str (resolve_type types props rv).1) ∧
    getKV (asObj (json_to_objectF (n + 1) (Json.obj kvs))) "verb" =
      (match (resolve_type types props rv).2 with
       | some s => if s = "" then none else some (Json.str s)
       | none => none) ∧
    json_to_object (Json.obj
        [("type", Json.arr [Json.str "h-as-rsvp", Json.str "h-entry"]),
         ("properties", Json.obj
           [("rsvp", Json.arr [Json.str "yes"]),
            ("repost-of", Json.arr [Json.str "http://x"])])]) =
      Json.obj [("objectType", Json.str "activity"),
                ("verb", Json.str "rsvp-yes"),
                ("object", Json.obj [("url", Json.str "http://x")])] := by
  obtain ⟨h1, h2, -⟩ := json_to_object_body_get n kvs props types rv hprops htypes hrv
  have htr : truthy (Json.obj kvs) = true := by
    cases kvs with
    | nil => simp [getKV] at hprops
    | cons kv rest => rfl
  have hred : json_to_objectF (n + 1) (Json.obj kvs) =
      trim_nulls (Json.obj (json_to_object_bodyWith (json_to_objectF n) kvs)) := by
    simp [json_to_objectF, htr, isDict, asObj]
  refine ⟨?_, ?_, by decide⟩
  · rw [hred, getKV_trim_obj _ _ (json_to_object_body_keys_nodup _ _), h1]
    simp [trim_nulls_str, isNullVal_str, resolve_type_fst_ne types props rv]
  · rw [hred, getKV_trim_obj _ _ (json_to_object_body_keys_nodup _ _), h2]
    cases hv : (resolve_type types props rv).2 with
    | none =>
      have hN : trim_nulls Json.null = Json.null := rfl
      simp [hN, isNullVal]
    | some s =>
      by_cases hs : s = "" <;> simp [hs, trim_nulls_str, isNullVal_str, isNullVal]

/-- Witness for C2 at a concrete item with empty type and property lists
(resolving to the article default). -/
theorem C2_type_resolution_witness :
    getKV (asObj (json_to_objectF 1
        (Json.obj [("properties", Json.obj []), ("type", Json.arr [])]))) "objectType" =
      some (Json.str (resolve_type [] [] none).1) ∧
    getKV (asObj (json_to_objectF 1
        (Json.obj [("properties", Json.obj []), ("type", Json.arr [])]))) "verb" =
      (match (resolve_type [] [] none).2 with
       | some s => if s = "" then none else some (Json.str s)
       | none => none) ∧
    json_to_object (Json.obj
        [("type", Json.arr [Json.str "h-as-rsvp", Json.str "h-entry"]),
         ("properties", Json.obj
           [("rsvp", Json.arr [Json.str "yes"]),
            ("repost-of", Json.arr [Json.str "http://x"])])]) =
      Json.obj [("objectType", Json.str "activity"),
                ("verb", Json.str "rsvp-yes"),
                ("object", Json.obj [("url", Json.str "http://x")])] :=
  C2_type_resolution 0 [("properties", Json.obj []), ("type", Json.arr [])] [] [] none
    rfl rfl rfl

/-- C3: for an item resolving to an activity, the decoded object entry is
the deduplicated ordered target list collected from the relation
properties like, like-of, repost, repost-of, in-reply-to, invitee: the
collection equals first-occurrence deduplication of the converted targets
in property order, hence has no structural duplicates, is a subsequence of
the raw converted target list (first-seen order preserved), keeps exactly
the targets that occur raw, and converts a bare string to a url dict; an
item repeating one URL under the legacy alias like and the current
property like-of yields exactly one target. -/
theorem C3_target_dedup (n : Nat) (kvs props : PyDict) (types : List Json)
    (rv : Option String)
    (hprops : getKV kvs "properties" = some (Json.obj props))
    (htypes : getKV kvs "type" = some (Json.arr types))
    (hrv : rv = (if truthy (dictGet (first_props (Json.obj props)) "rsvp") then
      some ("rsvp-" ++ pyFormat (dictGet (first_props (Json.obj props)) "rsvp")) else none))
    (hact : (resolve_type types props rv).1 = "activity") :
    getKV (json_to_object_bodyWith (json_to_objectF n) kvs) "object" =
      some (match collect_objectsWith (json_to_objectF n) props with
            | [x] => x
            | xs => Json.arr xs) ∧
    collect_objectsWith (json_to_objectF n) props =
      dedupKeepFirst ((TARGET_FIELDS.flatMap
        (fun field => asList (dictGet props field (Json.arr [])))).map
        (convTargetWith (json_to_objectF n))) ∧
    (collect_objectsWith (json_to_objectF n) props).Nodup ∧
    (collect_objectsWith (json_to_objectF n) props).Sublist
      ((TARGET_FIELDS.flatMap
        (fun field => asList (dictGet props field (Json.arr [])))).map
        (convTargetWith (json_to_objectF n))) ∧
    (∀ x, x ∈ collect_objectsWith (json_to_objectF n) props ↔
      x ∈ (TARGET_FIELDS.flatMap
        (fun field => asList (dictGet props field (Json.arr [])))).map
        (convTargetWith (json_to_objectF n))) ∧
    (∀ s, convTargetWith (json_to_objectF n) (Json.str s) =
      Json.obj [("url", Json.str s)]) ∧
    json_to_object (Json.obj
        [("type", Json.arr [Json.str "h-as-like"]),
         ("properties", Json.obj
           [("like", Json.arr [Json.str "http://t"]),
            ("like-of", Json.arr [Json.str "http://t"])])]) =
      Json.obj [("objectType", Json.str "activity"),
                ("verb", Json.str "like"),
                ("object", Json.obj [("url", Json.str "http://t")])] := by
  obtain ⟨-, -, hobj⟩ := json_to_object_body_get n kvs props types rv hprops htypes hrv
  refine ⟨hobj hact, collect_objectsWith_eq _ _, ?_, ?_, ?_, fun s => rfl, by decide⟩
  · rw [collect_objectsWith_eq]
    exact dedupKeepFirst_nodup _
  · rw [collect_objectsWith_eq]
    exact dedupKeepFirst_sublist _
  · intro x
    rw [collect_objectsWith_eq]
    exact mem_dedupKeepFirst _ x

/-- Witness for C3 at a concrete like activity with a single bare-string
target. -/
theorem C3_target_dedup_witness :
    getKV (json_to_object_bodyWith (json_to_objectF 0)
        [("properties", Json.obj [("like-of", Json.arr [Json.str "http://t"])]),
         ("type", Json.arr [Json.str "h-as-like"])]) "object" =
      some (match collect_objectsWith (json_to_objectF 0)
          [("like-of", Json.arr [Json.str "http://t"])] with
            | [x] => x
            | xs => Json.arr xs) ∧
    collect_objectsWith (json_to_objectF 0) [("like-of", Json.arr [Json.str "http://t"])] =
      dedupKeepFirst ((TARGET_FIELDS.flatMap
        (fun field => asList (dictGet [("like-of", Json.arr [Json.str "http://t"])]
          field (Json.arr [])))).map
        (convTargetWith (json_to_objectF 0))) ∧
    (collect_objectsWith (json_to_objectF 0)
      [("like-of", Json.arr [Json.str "http://t"])]).Nodup ∧
    (collect_objectsWith (json_to_objectF 0)
      [("like-of", Json.arr [Json.str "http://t"])]).Sublist
      ((TARGET_FIELDS.flatMap
        (fun field => asList (dictGet [("like-of", Json.arr [Json.str "http://t"])]
          field (Json.arr [])))).map
        (convTargetWith (json_to_objectF 0))) ∧
    (∀ x, x ∈ collect_objectsWith (json_to_objectF 0)
        [("like-of", Json.arr [Json.str "http://t"])] ↔
      x ∈ (TARGET_FIELDS.flatMap
        (fun field => asList (dictGet [("like-of", Json.arr [Json.str "http://t"])]
          field (Json.arr [])))).map
        (convTargetWith (json_to_objectF 0))) ∧
    (∀ s, convTargetWith (json_to_objectF 0) (Json.str s) =
      Json.obj [("url", Json.str s)]) ∧
    json_to_object (Json.obj
        [("type", Json.arr [Json.str "h-as-like"]),
         ("properties", Json.obj
           [("like", Json.arr [Json.str "http://t"]),
            ("like-of", Json.arr [Json.str "http://t"])])]) =
      Json.obj [("objectType", Json.str "activity"),
                ("verb", Json.str "like"),
                ("object", Json.obj [("url", Json.str "http://t")])] :=
  C3_target_dedup 0
    [("properties", Json.obj [("like-of", Json.arr [Json.str "http://t"])]),
     ("type", Json.arr [Json.str "h-as-like"])]
    [("like-of", Json.arr [Json.str "http://t"])]
    [Json.str "h-as-like"] none rfl rfl rfl (by decide)

end Granary
